import Mathlib

/-!
Verification of the crafting synthetic-asset exchange contract
(`src/crafting/src`): the `DebtPool` proportional debt-share ledger, the
`AccountBook` per-user ledger, the oracle-driven valuation, the mint /
swap / redemption entry points and the asynchronous compensation
callbacks.

The embedding is a direct shallow translation of the Rust source:

* `near_sdk` collections (`UnorderedMap`, `LookupMap`, `HashMap`) become
  association lists with first-match lookup, replace-first insert and
  remove-first delete, which coincides with real map behaviour on
  duplicate-free key lists (the only states the real collections produce).
* `u128` values become `Nat`.  A `u128` subtraction in the source that is
  guarded by a preceding `assert!` is translated as plain `Nat`
  subtraction; Rust `assert!`/`env::panic` failures and oracle misses are
  modelled by `Except String`.
* Division by a possibly-zero quantity is translated with an explicit
  zero test (Rust division by zero panics).
* Ambient NEAR environment data (`predecessor_account_id`,
  `block_height`, `block_timestamp`, `storage_byte_cost`, promise
  results) is passed explicitly as arguments.
-/


namespace Crafting

/-- Fee divisor, `utils::FEE_DIVISOR`. -/
def FEE_DIVISOR : Nat := 1000

/-- Debt-ratio divisor, `utils::RATIO_DIVISOR`. -/
def RATIO_DIVISOR : Nat := 1000000

/-- Price precision, `utils::PRICE_PRECISION`. -/
def PRICE_PRECISION : Nat := 100000

/-- Decidable equality on `Except`, for evaluating concrete runs of the
fallible operations. -/
instance {ε α : Type} [DecidableEq ε] [DecidableEq α] : DecidableEq (Except ε α) :=
  fun x y =>
    match x, y with
    | .ok a, .ok b =>
        if h : a = b then isTrue (by rw [h]) else isFalse (by intro he; cases he; exact h rfl)
    | .error a, .error b =>
        if h : a = b then isTrue (by rw [h]) else isFalse (by intro he; cases he; exact h rfl)
    | .ok _, .error _ => isFalse (by intro he; cases he)
    | .error _, .ok _ => isFalse (by intro he; cases he)

/-- First-match lookup, as `LookupMap::get` / `UnorderedMap::get`. -/
def lookupA {α β : Type} [DecidableEq α] : List (α × β) → α → Option β
  | [], _ => none
  | p :: t, k => if p.1 = k then some p.2 else lookupA t k

/-- Replace the first binding of `k`, or append a new one, as `insert`
on the NEAR maps. -/
def insertA {α β : Type} [DecidableEq α] : List (α × β) → α → β → List (α × β)
  | [], k, v => [(k, v)]
  | p :: t, k, v => if p.1 = k then (k, v) :: t else p :: insertA t k v

/-- Remove the first binding of `k`, as `remove` on the NEAR maps. -/
def removeA {α β : Type} [DecidableEq α] : List (α × β) → α → List (α × β)
  | [], _ => []
  | p :: t, k => if p.1 = k then t else p :: removeA t k

/-- Oracle state: mapping from assets to prices (`PriceInfo`). -/
structure PriceInfo where
  prices : List (String × Nat)
deriving DecidableEq

namespace PriceInfo

/-- Price of an asset; `get_price` asserts the price was fed. -/
def get_price (po : PriceInfo) (asset : String) : Except String Nat :=
  match lookupA po.prices asset with
  | some p => .ok p
  | none => .error "price not found"

/-- Administrative unconditional overwrite (`feed_price`). -/
def feed_price (po : PriceInfo) (asset : String) (price : Nat) : PriceInfo :=
  { po with prices := insertA po.prices asset price }

end PriceInfo

/-- Signed balance as magnitude plus sign flag (`WrappedBalance`). -/
structure WrappedBalance where
  amount : Nat
  is_positive : Bool
deriving DecidableEq

/-- The shared pool ledger (`DebtPool`): per-asset net position,
per-(user, asset) contribution, and per-user debt ratio. -/
structure DebtPool where
  raft_amounts : List (String × WrappedBalance)
  user_raft_amounts : List ((String × String) × Nat)
  debt_ratios : List (String × Nat)
deriving DecidableEq

namespace DebtPool

/-- The freshly initialised pool (`DebtPool::new`). -/
def new : DebtPool :=
  { raft_amounts := [], user_raft_amounts := [], debt_ratios := [] }

/-- Direct translation of `DebtPool::query_raft_amount`.  The source looks
the entry up, discards the unwrapped value (the `if` body is a bare
`opt_wbalance.unwrap();` whose result is dropped, with no `return`), and
then unconditionally returns the zero balance. -/
def query_raft_amount (dp : DebtPool) (raft_id : String) : WrappedBalance :=
  let _opt_wbalance := lookupA dp.raft_amounts raft_id
  { amount := 0, is_positive := true }

/-- Overwrite the net position of a raft (`insert_raft_amount`). -/
def insert_raft_amount (dp : DebtPool) (raft_id : String) (amount : WrappedBalance) :
    DebtPool :=
  { dp with raft_amounts := insertA dp.raft_amounts raft_id amount }

/-- Per-(user, raft) contribution, zero when absent
(`query_user_raft_amount`). -/
def query_user_raft_amount (dp : DebtPool) (user raft_id : String) : Nat :=
  (lookupA dp.user_raft_amounts (user, raft_id)).getD 0

/-- All non-zero contributions of `user`, scanning the tracked rafts
(`query_user_raft_amounts`). -/
def query_user_raft_amounts (dp : DebtPool) (user : String) : List (String × Nat) :=
  dp.raft_amounts.filterMap fun p =>
    let amount := dp.query_user_raft_amount user p.1
    if amount ≠ 0 then some (p.1, amount) else none

/-- Overwrite a per-(user, raft) contribution (`insert_user_raft_amount`). -/
def insert_user_raft_amount (dp : DebtPool) (user raft_id : String) (amount : Nat) :
    DebtPool :=
  { dp with user_raft_amounts := insertA dp.user_raft_amounts (user, raft_id) amount }

/-- Drop a per-(user, raft) contribution (`remove_user_raft_amount`). -/
def remove_user_raft_amount (dp : DebtPool) (user raft_id : String) : DebtPool :=
  { dp with user_raft_amounts := removeA dp.user_raft_amounts (user, raft_id) }

/-- Value of `amount` units of a raft at the oracle price
(`calc_raft_value`). -/
def calc_raft_value (po : PriceInfo) (raft_id : String) (amount : Nat) :
    Except String Nat := do
  let price ← po.get_price raft_id
  pure (price * amount)

/-- Debt ratio of a user, zero when untracked (`query_debt_ratio`). -/
def query_debt_ratio (dp : DebtPool) (user : String) : Nat :=
  (lookupA dp.debt_ratios user).getD 0

/-- Record a debt ratio (`insert_debt_ratio`). -/
def insert_debt_ratio (dp : DebtPool) (user : String) (debt_ratio : Nat) : DebtPool :=
  { dp with debt_ratios := insertA dp.debt_ratios user debt_ratio }

/-- Drop a debt ratio (`remove_debt_ratio`). -/
def remove_debt_ratio (dp : DebtPool) (user : String) : DebtPool :=
  { dp with debt_ratios := removeA dp.debt_ratios user }

/-- Total value of the tracked net positions (`calc_raft_total_value`).
The source sums `price * wbalance.amount` over `raft_amounts`, ignoring
the sign flag of each entry. -/
def calc_raft_total_value (dp : DebtPool) (po : PriceInfo) : Except String Nat :=
  dp.raft_amounts.foldlM
    (fun total p => do
      let v ← calc_raft_value po p.1 p.2.amount
      pure (total + v))
    0

/-- Total value of one user's contributions (`calc_user_raft_total_value`):
scans the tracked rafts and skips zero rows. -/
def calc_user_raft_total_value (dp : DebtPool) (po : PriceInfo) (user : String) :
    Except String Nat :=
  dp.raft_amounts.foldlM
    (fun total p => do
      let amount := dp.query_user_raft_amount user p.1
      if amount ≠ 0 then
        let v ← calc_raft_value po p.1 amount
        pure (total + v)
      else
        pure total)
    0

/-- Redistribution step after a join (`calc_debt_ratio`): every tracked
user other than the sender is rescaled by `old/new`; the sender receives
`(old * ratio + (new - old) * RATIO_DIVISOR) / new`, and a new sender is
appended with ratio `(new - old) * RATIO_DIVISOR / new`.  A zero
`new_total_value` is an early no-op return.  The call site guarantees
`new_total_value ≥ old_total_value` (in the source a smaller value would
make the `u128` subtraction panic). -/
def calc_debt_ratio (dp : DebtPool) (old_total_value new_total_value : Nat)
    (sender_id : String) : DebtPool :=
  if new_total_value = 0 then dp
  else
    let updated := dp.debt_ratios.map fun p =>
      if p.1 ≠ sender_id then
        (p.1, old_total_value * p.2 / new_total_value)
      else
        (p.1, (old_total_value * p.2 +
          (new_total_value - old_total_value) * RATIO_DIVISOR) / new_total_value)
    let is_new_user := dp.debt_ratios.all fun p => p.1 ≠ sender_id
    if is_new_user then
      { dp with debt_ratios := updated ++
          [(sender_id, (new_total_value - old_total_value) * RATIO_DIVISOR / new_total_value)] }
    else
      { dp with debt_ratios := updated }

/-- Rescale every tracked ratio by `old/new` (`calc_all_debt_ratio`);
zero `new_total_value` is an early no-op return. -/
def calc_all_debt_ratio (dp : DebtPool) (old_total_value new_total_value : Nat) :
    DebtPool :=
  if new_total_value = 0 then dp
  else
    { dp with debt_ratios := dp.debt_ratios.map fun p =>
        (p.1, old_total_value * p.2 / new_total_value) }

/-- Signed add helper (`calc_add_raft_amount`): adds `amount` to the
magnitude when positive; when negative, subtracts and flips the sign when
the result crosses zero. -/
def calc_add_raft_amount (dp : DebtPool) (raft_id : String)
    (raft_amount : WrappedBalance) (amount : Nat) : DebtPool :=
  if raft_amount.is_positive then
    dp.insert_raft_amount raft_id { amount := raft_amount.amount + amount, is_positive := true }
  else
    if raft_amount.amount ≥ amount then
      dp.insert_raft_amount raft_id { amount := raft_amount.amount - amount, is_positive := false }
    else
      dp.insert_raft_amount raft_id { amount := amount - raft_amount.amount, is_positive := true }

/-- Signed subtract helper (`calc_sub_raft_amount`), mirror image of
`calc_add_raft_amount`. -/
def calc_sub_raft_amount (dp : DebtPool) (raft_id : String)
    (raft_amount : WrappedBalance) (amount : Nat) : DebtPool :=
  if raft_amount.is_positive then
    if raft_amount.amount ≥ amount then
      dp.insert_raft_amount raft_id { amount := raft_amount.amount - amount, is_positive := true }
    else
      dp.insert_raft_amount raft_id { amount := amount - raft_amount.amount, is_positive := false }
  else
    dp.insert_raft_amount raft_id { amount := raft_amount.amount + amount, is_positive := false }

/-- Join the pool (`DebtPool::join`): genesis deposit when no raft is
tracked yet, otherwise add the contribution and redistribute the debt
ratios in one pass. -/
def join (dp : DebtPool) (po : PriceInfo) (user raft_id : String) (raft_amount : Nat) :
    Except String DebtPool :=
  if dp.raft_amounts.isEmpty then
    let dp := dp.insert_raft_amount raft_id { amount := raft_amount, is_positive := true }
    let dp := dp.insert_user_raft_amount user raft_id raft_amount
    let dp := dp.insert_debt_ratio user RATIO_DIVISOR
    pure dp
  else do
    let old_total_value ← dp.calc_raft_total_value po
    let old_raft_amount := dp.query_raft_amount raft_id
    let dp := dp.calc_add_raft_amount raft_id old_raft_amount raft_amount
    let old_user_raft_amount := dp.query_user_raft_amount user raft_id
    let dp := dp.insert_user_raft_amount user raft_id (old_user_raft_amount + raft_amount)
    let join_raft_value ← calc_raft_value po raft_id raft_amount
    let new_total_value := old_total_value + join_raft_value
    pure (dp.calc_debt_ratio old_total_value new_total_value user)

end DebtPool

/-- The individually-collateralized ledger (`AccountBook`): per-raft total
and per-(user, raft) rows, all non-negative. -/
structure AccountBook where
  raft_amounts : List (String × Nat)
  user_raft_amounts : List ((String × String) × Nat)
deriving DecidableEq

namespace AccountBook

/-- The freshly initialised book (`AccountBook::new`). -/
def new : AccountBook :=
  { raft_amounts := [], user_raft_amounts := [] }

/-- Per-raft total, zero when absent (`query_raft_amount`). -/
def query_raft_amount (ab : AccountBook) (raft_id : String) : Nat :=
  (lookupA ab.raft_amounts raft_id).getD 0

/-- Overwrite a per-raft total (`insert_raft_amount`). -/
def insert_raft_amount (ab : AccountBook) (raft_id : String) (amount : Nat) :
    AccountBook :=
  { ab with raft_amounts := insertA ab.raft_amounts raft_id amount }

/-- Per-(user, raft) row, zero when absent (`query_user_raft_amount`). -/
def query_user_raft_amount (ab : AccountBook) (user raft_id : String) : Nat :=
  (lookupA ab.user_raft_amounts (user, raft_id)).getD 0

/-- Overwrite a per-(user, raft) row (`insert_user_raft_amount`). -/
def insert_user_raft_amount (ab : AccountBook) (user raft_id : String) (amount : Nat) :
    AccountBook :=
  { ab with user_raft_amounts := insertA ab.user_raft_amounts (user, raft_id) amount }

/-- Mint into the book (`AccountBook::mint`): increment both the per-raft
total and the per-(user, raft) row. -/
def mint (ab : AccountBook) (user raft_id : String) (raft_amount : Nat) : AccountBook :=
  let old_amount := ab.query_raft_amount raft_id
  let ab := ab.insert_raft_amount raft_id (old_amount + raft_amount)
  let old_user_amount := ab.query_user_raft_amount user raft_id
  ab.insert_user_raft_amount user raft_id (old_user_amount + raft_amount)

end AccountBook

/-- Registered asset descriptor (`Asset`). -/
structure Asset where
  name : String
  symbol : String
  standard : String
  decimals : Nat
  address : String
  feed_address : String
  collateral_ratio : Nat
  state : Nat
deriving DecidableEq

/-- One record per mint action (`Collateral`). -/
structure Collateral where
  issuer : String
  token : String
  token_amount : Nat
  raft : String
  raft_amount : Nat
  join_debtpool : Bool
  block_index : Nat
  create_time : Nat
  state : Nat
deriving DecidableEq

/-- Contract running state (`RunningState`). -/
inductive RunningState where
  | Running
  | Paused
deriving DecidableEq

/-- Storage cost constants of `account.rs` (in storage units;
`INIT_ACCOUNT_STORAGE = 98`, and each token row costs
`KEY_PREFIX_ACC + ACC_ID_AS_KEY_STORAGE + U128_STORAGE = 148`). -/
def INIT_ACCOUNT_STORAGE : Nat := 98

/-- Per-token-row storage usage, `KEY_PREFIX_ACC + ACC_ID_AS_KEY_STORAGE +
U128_STORAGE = 64 + 68 + 16`. -/
def TOKEN_ROW_STORAGE : Nat := 148

/-- Deposit account (`Account`): attached NEAR, per-token deposits. -/
structure Account where
  near_amount : Nat
  tokens : List (String × Nat)
  storage_used : Nat
deriving DecidableEq

namespace Account

/-- A fresh account (`Account::new`). -/
def new : Account :=
  { near_amount := 0, tokens := [], storage_used := 0 }

/-- NEAR needed to cover this account's storage (`storage_usage`);
`sbc` is the ambient `env::storage_byte_cost()`. -/
def storage_usage (sbc : Nat) (a : Account) : Nat :=
  (INIT_ACCOUNT_STORAGE + a.tokens.length * TOKEN_ROW_STORAGE) * sbc

/-- Deposit with a storage check (`deposit_with_storage_check`): a
registered token row is topped up unconditionally; a new row is kept only
when the account's NEAR covers the storage after the insert, otherwise
the insert is rolled back and `false` is returned. -/
def deposit_with_storage_check (sbc : Nat) (a : Account) (token : String)
    (amount : Nat) : Account × Bool :=
  match lookupA a.tokens token with
  | some balance =>
      ({ a with tokens := insertA a.tokens token (balance + amount) }, true)
  | none =>
      let inserted := { a with tokens := insertA a.tokens token amount }
      if inserted.storage_usage sbc ≤ a.near_amount then
        (inserted, true)
      else
        (a, false)

/-- Unconditional deposit (`Account::deposit`). -/
def deposit (a : Account) (token : String) (amount : Nat) : Account :=
  match lookupA a.tokens token with
  | some x => { a with tokens := insertA a.tokens token (amount + x) }
  | none => { a with tokens := insertA a.tokens token amount }

/-- Withdraw from the internal balance (`Account::withdraw`): panics when
the token is unregistered or the balance is smaller than `amount`. -/
def withdraw (a : Account) (token : String) (amount : Nat) : Except String Account :=
  match lookupA a.tokens token with
  | some x =>
      if amount ≤ x then
        .ok { a with tokens := insertA a.tokens token (x - amount) }
      else
        .error "Not enough tokens in deposit"
  | none => .error "Token not registered"

end Account

/-- The whole contract state (`Contract`). -/
structure Contract where
  owner_id : String
  state : RunningState
  leverage_ratio : Nat × Nat
  interest_fee : Nat
  exchange_fee : Nat
  accounts : List (String × Account)
  whitelisted_tokens : List String
  token_list : List (String × Asset)
  whitelisted_rafts : List String
  raft_list : List (String × Asset)
  collaterals : List Collateral
  user_collaterals : List (String × List Nat)
  debt_pool : DebtPool
  account_book : AccountBook
  price_oracle : PriceInfo
deriving DecidableEq

/-- Outcome of an asynchronous cross-contract promise, as the callback
observes it (`PromiseResult`; the `NotReady` arm is `unreachable!()` in
the source and is not represented). -/
inductive TxResult where
  | successful
  | failed
deriving DecidableEq

namespace Contract

/-- Gate on the running state (`assert_contract_running`). -/
def assert_contract_running (st : Contract) : Except String Unit :=
  match st.state with
  | RunningState.Running => .ok ()
  | _ => .error "Contract paused"

/-- Whitelist membership for collateral tokens
(`is_in_whitelisted_tokens`). -/
def is_in_whitelisted_tokens (st : Contract) (token : String) : Bool :=
  st.whitelisted_tokens.contains token

/-- Asset descriptor from the token registry (`query_token`). -/
def query_token (st : Contract) (token : String) : Option Asset :=
  lookupA st.token_list token

/-- Whitelist membership for rafts (`is_in_whitelisted_rafts`). -/
def is_in_whitelisted_rafts (st : Contract) (raft : String) : Bool :=
  st.whitelisted_rafts.contains raft

/-- Asset descriptor from the raft registry (`query_raft`). -/
def query_raft (st : Contract) (raft : String) : Option Asset :=
  lookupA st.raft_list raft

/-- The settlement asset: first raft whose symbol is "rUSD"
(`query_rusd`). -/
def query_rusd (st : Contract) : Option Asset :=
  st.raft_list.findSome? fun p =>
    if p.2.symbol = "rUSD" then some p.2 else none

/-- Collateral record by id (`query_collateral`). -/
def query_collateral (st : Contract) (collateral_id : Nat) : Option Collateral :=
  st.collaterals.get? collateral_id

/-- Deposit account of a user (`internal_get_account`; the `VAccount`
versioned wrapper has a single current variant). -/
def internal_get_account (st : Contract) (account_id : String) : Option Account :=
  lookupA st.accounts account_id

/-- Save an account after checking it can afford its storage
(`internal_save_account`). -/
def internal_save_account (sbc : Nat) (st : Contract) (account_id : String)
    (account : Account) : Except String Contract :=
  if account.storage_usage sbc ≤ account.near_amount then
    .ok { st with accounts := insertA st.accounts account_id account }
  else
    .error "Insufficient storage deposit"

/-- Divert an amount to the owner's lost-found row
(`internal_lostfound`): only a globally whitelisted token may be stored;
anything else is a fatal failure. -/
def internal_lostfound (st : Contract) (token_id : String) (amount : Nat) :
    Except String Contract :=
  if st.whitelisted_tokens.contains token_id then
    let lostfound := (st.internal_get_account st.owner_id).getD Account.new
    let lostfound := lostfound.deposit token_id amount
    .ok { st with accounts := insertA st.accounts st.owner_id lostfound }
  else
    .error "non-whitelisted token can NOT deposit into lost-found"

/-- Compensation callback bound to every outbound token transfer
(`exchange_callback_post_withdraw`): on success nothing happens; on
failure the amount is re-credited to the sender's deposit row when the
account exists and can afford the storage, and otherwise diverted to the
owner's lost-found row. -/
def exchange_callback_post_withdraw (sbc : Nat) (st : Contract)
    (token_id sender_id : String) (amount : Nat) (result : TxResult) :
    Except String Contract :=
  match result with
  | .successful => .ok st
  | .failed =>
      match st.internal_get_account sender_id with
      | some account =>
          let (account, ok) := account.deposit_with_storage_check sbc token_id amount
          if ok then
            .ok { st with accounts := insertA st.accounts sender_id account }
          else
            st.internal_lostfound token_id amount
      | none => st.internal_lostfound token_id amount

/-- The `mint` entry point (`Contract::mint`): validation only; it fires
the collateral `ft_transfer_call` and schedules `mint_callback`, without
touching any ledger itself. -/
def mint (st : Contract) (token : String) (token_amount : Nat)
    (raft : String) (raft_amount : Nat) : Except String Unit := do
  st.assert_contract_running
  if ¬ st.is_in_whitelisted_tokens token then throw "token not whitelisted"
  if ¬ st.is_in_whitelisted_rafts raft then throw "raft not whitelisted"
  if token_amount = 0 then throw "Requires positive attached deposit"
  if raft_amount = 0 then throw "Invalid synthetic amount"
  pure ()

/-- The mint callback (`Contract::mint_callback`), scheduled after the
inbound collateral transfer.  The source never calls
`env::promise_result`, so `transfer_result` is ignored exactly as the
ambient promise outcome is ignored there; the ledger mutation and the
collateral append run unconditionally.  On the pool path the leverage
ratio must lie in the governance band; on the individual path the
collateral ratio is compared against `token_asset.collateral_ratio`, the
descriptor of the collateral token, and the raft's descriptor is also
looked up via `query_token` (both lookups hit `token_list`). -/
def mint_callback (st : Contract) (sender_id token : String) (token_amount : Nat)
    (raft : String) (raft_amount : Nat) (join_debtpool : Bool)
    (block_index create_time : Nat) (transfer_result : TxResult) :
    Except String Contract := do
  let _ := transfer_result
  let st ←
    if join_debtpool then do
      let some token_asset := st.query_token token | throw "no token asset"
      let some raft_asset := st.query_raft raft | throw "no raft asset"
      let token_decimals := token_asset.decimals
      let raft_decimals := raft_asset.decimals
      let praft ← st.price_oracle.get_price raft
      let ptoken ← st.price_oracle.get_price token
      let denom := ptoken * token_amount * 10 ^ raft_decimals
      if denom = 0 then throw "division by zero"
      let leverage := praft * raft_amount * 10 ^ token_decimals / denom
      if leverage < st.leverage_ratio.1 then throw "leverage too low"
      if st.leverage_ratio.2 < leverage then throw "leverage too high"
      let dp ← st.debt_pool.join st.price_oracle sender_id raft raft_amount
      pure { st with debt_pool := dp }
    else do
      let some token_asset := st.query_token token | throw "no token asset"
      let some raft_asset := st.query_token raft | throw "no raft asset in token list"
      let token_decimals := token_asset.decimals
      let raft_decimals := raft_asset.decimals
      let ptoken ← st.price_oracle.get_price token
      let praft ← st.price_oracle.get_price raft
      let denom := praft * raft_amount * 10 ^ token_decimals
      if denom = 0 then throw "division by zero"
      let collateral_ratio := ptoken * token_amount * 10 ^ raft_decimals * 100 / denom
      if collateral_ratio < token_asset.collateral_ratio then
        throw "collateral ratio below minimum"
      pure { st with account_book := st.account_book.mint sender_id raft raft_amount }
  let collateral : Collateral :=
    { issuer := sender_id, token := token, token_amount := token_amount,
      raft := raft, raft_amount := raft_amount, join_debtpool := join_debtpool,
      block_index := block_index, create_time := create_time, state := 0 }
  pure { st with collaterals := st.collaterals ++ [collateral] }

/-- Pool-internal exchange (`Contract::swap_in_debtpool`): fee to the
owner's contribution, signed subtract on the outgoing net position,
signed add on the incoming one; debt ratios are never touched. -/
def swap_in_debtpool (st : Contract) (sender old_raft new_raft : String)
    (swap_amount : Nat) : Except String Contract := do
  st.assert_contract_running
  if ¬ st.is_in_whitelisted_rafts old_raft then throw "raft not whitelisted"
  if ¬ st.is_in_whitelisted_rafts new_raft then throw "raft not whitelisted"
  if swap_amount = 0 then throw "zero swap amount"
  let old_raft_amount := st.debt_pool.query_raft_amount old_raft
  let old_user_raft_amount := st.debt_pool.query_user_raft_amount sender old_raft
  if old_user_raft_amount < swap_amount then throw "insufficient user raft amount"
  let exchange_fee_amount := swap_amount * st.exchange_fee / FEE_DIVISOR
  let owner_raft_amount := st.debt_pool.query_user_raft_amount st.owner_id old_raft
  let dp := st.debt_pool.insert_user_raft_amount st.owner_id old_raft
    (owner_raft_amount + exchange_fee_amount)
  let dp := dp.calc_sub_raft_amount old_raft old_raft_amount
    (swap_amount - exchange_fee_amount)
  let dp := dp.insert_user_raft_amount sender old_raft
    (old_user_raft_amount - swap_amount)
  let value ← DebtPool.calc_raft_value st.price_oracle old_raft
    (swap_amount - exchange_fee_amount)
  let new_price ← st.price_oracle.get_price new_raft
  if new_price = 0 then throw "division by zero"
  let new_swap_amount := value / new_price
  let new_raft_amount := dp.query_raft_amount new_raft
  let dp := dp.calc_add_raft_amount new_raft new_raft_amount new_swap_amount
  let new_user_raft_amount := dp.query_user_raft_amount sender new_raft
  let dp := dp.insert_user_raft_amount sender new_raft
    (new_user_raft_amount + new_swap_amount)
  pure { st with debt_pool := dp }

/-- Book-internal exchange (`Contract::swap_in_accountbook`): fee to the
owner's row, additive updates on the book, and the mirrored signed
adjustment on the debt pool's net positions. -/
def swap_in_accountbook (st : Contract) (sender old_raft new_raft : String)
    (swap_amount : Nat) : Except String Contract := do
  st.assert_contract_running
  if ¬ st.is_in_whitelisted_rafts old_raft then throw "raft not whitelisted"
  if ¬ st.is_in_whitelisted_rafts new_raft then throw "raft not whitelisted"
  if swap_amount = 0 then throw "zero swap amount"
  let old_raft_amount := st.account_book.query_raft_amount old_raft
  if old_raft_amount < swap_amount then throw "insufficient raft amount"
  let old_user_raft_amount := st.account_book.query_user_raft_amount sender old_raft
  if old_user_raft_amount < swap_amount then throw "insufficient user raft amount"
  let exchange_fee_amount := swap_amount * st.exchange_fee / FEE_DIVISOR
  let owner_raft_amount := st.account_book.query_user_raft_amount st.owner_id old_raft
  let ab := st.account_book.insert_user_raft_amount st.owner_id old_raft
    (owner_raft_amount + exchange_fee_amount)
  let ab := ab.insert_raft_amount old_raft
    (old_raft_amount - swap_amount + exchange_fee_amount)
  let ab := ab.insert_user_raft_amount sender old_raft
    (old_user_raft_amount - swap_amount)
  let pold ← st.price_oracle.get_price old_raft
  let pnew ← st.price_oracle.get_price new_raft
  if pnew = 0 then throw "division by zero"
  let new_swap_amount := pold * (swap_amount - exchange_fee_amount) / pnew
  let new_raft_amount := ab.query_raft_amount new_raft
  let ab := ab.insert_raft_amount new_raft (new_raft_amount + new_swap_amount)
  let new_user_raft_amount := ab.query_user_raft_amount sender new_raft
  let ab := ab.insert_user_raft_amount sender new_raft
    (new_user_raft_amount + new_swap_amount)
  let dp_old_raft_amount := st.debt_pool.query_raft_amount old_raft
  let dp := st.debt_pool.calc_sub_raft_amount old_raft dp_old_raft_amount new_swap_amount
  let dp_new_raft_amount := dp.query_raft_amount new_raft
  let dp := dp.calc_add_raft_amount new_raft dp_new_raft_amount new_swap_amount
  pure { st with account_book := ab, debt_pool := dp }

/-- Debt settlement block of pooled redemption
(`redeem_in_debtpool`, lines guarded by `user_debt > 0`): settle from the
pooled rUSD row alone when it covers the debt, otherwise drain it and
draw the shortfall from the caller's AccountBook row, failing when even
that does not suffice.  The final book-total subtraction is unguarded in
the source and translated as `Nat` subtraction. -/
def redeem_settle_debt (st : Contract) (sender rusd_address : String)
    (user_debt : Nat) : Except String Contract := do
  let user_rusd_amount_in_debtpool :=
    st.debt_pool.query_user_raft_amount sender rusd_address
  let user_debt_amount := user_debt / PRICE_PRECISION
  if user_debt ≤ user_rusd_amount_in_debtpool * PRICE_PRECISION then
    let dp := st.debt_pool.insert_user_raft_amount sender rusd_address
      (user_rusd_amount_in_debtpool - user_debt_amount)
    let rusd_amount := dp.query_raft_amount rusd_address
    let dp := dp.calc_sub_raft_amount rusd_address rusd_amount user_debt_amount
    let dp := dp.remove_debt_ratio sender
    pure { st with debt_pool := dp }
  else do
    let user_rusd_amount_in_accountbook :=
      st.account_book.query_user_raft_amount sender rusd_address
    if user_rusd_amount_in_debtpool + user_rusd_amount_in_accountbook < user_debt_amount then
      throw "insufficient balance"
    let dp := st.debt_pool.remove_user_raft_amount sender rusd_address
    let rusd_amount_in_debtpool := dp.query_raft_amount rusd_address
    let dp := dp.calc_sub_raft_amount rusd_address rusd_amount_in_debtpool
      user_rusd_amount_in_debtpool
    let dp := dp.remove_debt_ratio sender
    let remaining_debt_amount := user_debt_amount - user_rusd_amount_in_debtpool
    let ab := st.account_book.insert_user_raft_amount sender rusd_address
      (user_rusd_amount_in_accountbook - remaining_debt_amount)
    let rusd_amount_in_accountbook := ab.query_raft_amount rusd_address
    let ab := ab.insert_raft_amount rusd_address
      (rusd_amount_in_accountbook - remaining_debt_amount)
    pure { st with debt_pool := dp, account_book := ab }

/-- One iteration of the migration loop of pooled redemption: move the
pooled row `p` of the caller into the AccountBook. -/
def redeem_migrate_step (sender : String) (st : Contract) (p : String × Nat) : Contract :=
  let debtpool_raft_amount := st.debt_pool.query_raft_amount p.1
  let dp := st.debt_pool.calc_sub_raft_amount p.1 debtpool_raft_amount p.2
  let dp := dp.remove_user_raft_amount sender p.1
  let accountbook_raft_amount := st.account_book.query_raft_amount p.1
  let ab := st.account_book.insert_raft_amount p.1 (accountbook_raft_amount + p.2)
  let accountbook_user_raft_amount := ab.query_user_raft_amount sender p.1
  let ab := ab.insert_user_raft_amount sender p.1 (accountbook_user_raft_amount + p.2)
  { st with debt_pool := dp, account_book := ab }

/-- Migration block of pooled redemption: every remaining non-zero pooled
row of the caller is moved row-for-row into the AccountBook, iterating
over the snapshot taken before the loop. -/
def redeem_migrate (st : Contract) (sender : String) : Contract :=
  (st.debt_pool.query_user_raft_amounts sender).foldl (redeem_migrate_step sender) st

/-- Collateral-return block of pooled redemption: for every collateral id
of the caller, withdraw the locked token from the deposit account and
fire the asynchronous transfer (`internal_send_tokens` does not mutate
the ledger in this call). -/
def redeem_return_collateral (sbc : Nat) (st : Contract) (sender : String)
    (collateral_ids : List Nat) : Except String Contract :=
  collateral_ids.foldlM
    (fun st cid =>
      match st.query_collateral cid with
      | none => pure st
      | some collateral => do
          let some account := st.internal_get_account sender | throw "Account not registered"
          let account ← account.withdraw collateral.token collateral.token_amount
          internal_save_account sbc st sender account)
    st

/-- Pooled redemption (`Contract::redeem_in_debtpool`): compute the owed
debt from the caller's ratio, settle it, migrate the remaining pooled
rows into the AccountBook, rescale the remaining ratios, and return the
locked collateral. -/
def redeem_in_debtpool (sbc : Nat) (st : Contract) (sender : String) :
    Except String Contract := do
  st.assert_contract_running
  let some rusd_asset := st.query_rusd | throw "no rUSD asset"
  let some collateral_ids := lookupA st.user_collaterals sender | throw "no collaterals"
  let user_debt_ratio := st.debt_pool.query_debt_ratio sender
  let raft_total_value ← st.debt_pool.calc_raft_total_value st.price_oracle
  let user_debt := raft_total_value * user_debt_ratio / RATIO_DIVISOR
  let st ←
    if 0 < user_debt then
      st.redeem_settle_debt sender rusd_asset.address user_debt
    else
      pure st
  let st := st.redeem_migrate sender
  let new_raft_total_value ← st.debt_pool.calc_raft_total_value st.price_oracle
  let st := { st with debt_pool :=
    st.debt_pool.calc_all_debt_ratio raft_total_value new_raft_total_value }
  st.redeem_return_collateral sbc sender collateral_ids

/-- Individual redemption (`Contract::redeem_in_accountbook`): interest
fee to the owner's row, strict-inequality balance checks, book updates,
and release of the locked collateral token. -/
def redeem_in_accountbook (sbc : Nat) (st : Contract) (sender : String)
    (collateral_id : Nat) : Except String Contract := do
  st.assert_contract_running
  let some collateral := st.query_collateral collateral_id | throw "collateral not found"
  if collateral.issuer ≠ sender then throw "You do not have permission"
  if collateral.join_debtpool ≠ false then throw "pooled collateral"
  if collateral.state ≠ 0 then throw "collateral state"
  let raft_amount := st.account_book.query_raft_amount collateral.raft
  let user_raft_amount := st.account_book.query_user_raft_amount sender collateral.raft
  let interest_fee_amount := collateral.raft_amount * st.interest_fee / FEE_DIVISOR
  if raft_amount ≤ collateral.raft_amount + interest_fee_amount then
    throw "insufficient raft amount"
  if user_raft_amount ≤ collateral.raft_amount + interest_fee_amount then
    throw "insufficient user raft amount"
  let owner_raft_amount := st.account_book.query_user_raft_amount st.owner_id collateral.raft
  let ab := st.account_book.insert_user_raft_amount st.owner_id collateral.raft
    (owner_raft_amount + interest_fee_amount)
  let ab := ab.insert_user_raft_amount sender collateral.raft
    (user_raft_amount - collateral.raft_amount - interest_fee_amount)
  let ab := ab.insert_raft_amount collateral.raft (raft_amount - collateral.raft_amount)
  let st := { st with account_book := ab }
  let some account := st.internal_get_account sender | throw "Account not registered"
  let account ← account.withdraw collateral.token collateral.token_amount
  internal_save_account sbc st sender account

/-- Validation part of `Contract::deposit_in_accountbook`: reads the
snapshots later handed to the deposit callback; the ledger itself is
untouched until the callback runs. -/
def deposit_in_accountbook (st : Contract) (sender raft_id : String) :
    Except String (Nat × Nat) := do
  st.assert_contract_running
  pure (st.account_book.query_raft_amount raft_id,
        st.account_book.query_user_raft_amount sender raft_id)

/-- Validation part of `Contract::withdraw_in_accountbook`: asserts the
balances cover `amount` and reads the snapshots later handed to the
withdraw callback. -/
def withdraw_in_accountbook (st : Contract) (sender raft_id : String) (amount : Nat) :
    Except String (Nat × Nat) := do
  st.assert_contract_running
  if amount = 0 then throw "Illegal withdraw amount"
  let raft_amount := st.account_book.query_raft_amount raft_id
  let user_raft_amount := st.account_book.query_user_raft_amount sender raft_id
  if raft_amount < amount then throw "insufficient raft amount"
  if user_raft_amount < amount then throw "insufficient user raft amount"
  pure (raft_amount, user_raft_amount)

/-- Deposit callback (`Contract::account_book_callback_deposit`):
overwrites the book total and user row with the passed snapshots plus
`amount`. -/
def account_book_callback_deposit (st : Contract) (sender_id raft_id : String)
    (amount raft_amount user_raft_amount : Nat) : Contract :=
  let ab := st.account_book.insert_raft_amount raft_id (raft_amount + amount)
  let ab := ab.insert_user_raft_amount sender_id raft_id (user_raft_amount + amount)
  { st with account_book := ab }

/-- Withdraw callback (`Contract::account_book_callback_withdraw`):
overwrites the book total and user row with the passed snapshots minus
`amount` (the subtractions are unguarded in the callback; the initiating
call asserts both snapshots cover `amount`). -/
def account_book_callback_withdraw (st : Contract) (sender_id raft_id : String)
    (amount raft_amount user_raft_amount : Nat) : Contract :=
  let ab := st.account_book.insert_raft_amount raft_id (raft_amount - amount)
  let ab := ab.insert_user_raft_amount sender_id raft_id (user_raft_amount - amount)
  { st with account_book := ab }

end Contract

/-- A contract state with empty ledgers, owner `own`, the deployment
defaults `leverage_ratio = (1, 10)`, `interest_fee = 0`,
`exchange_fee = 3` of `Contract::new`, and empty registries. -/
def baseContract : Contract :=
  { owner_id := "own", state := RunningState.Running, leverage_ratio := (1, 10),
    interest_fee := 0, exchange_fee := 3, accounts := [],
    whitelisted_tokens := [], token_list := [],
    whitelisted_rafts := [], raft_list := [],
    collaterals := [], user_collaterals := [],
    debt_pool := DebtPool.new, account_book := AccountBook.new,
    price_oracle := { prices := [] } }

/-- The designated settlement asset: a raft whose symbol is `rUSD`,
registered under the address `rusd`. -/
def rusdAsset : Asset :=
  { name := "rUSD", symbol := "rUSD", standard := "nep141", decimals := 8,
    address := "rusd", feed_address := "feed", collateral_ratio := 0, state := 0 }

/-- Oracle state feeding `rusd` the price `100000`
(one dollar at `PRICE_PRECISION` scale). -/
def rusdOracle : PriceInfo := { prices := [("rusd", 100000)] }

/-- C1 failing run, pool part: `a` joins `rusd` with amount 100 and then
`b` joins `rusd` with amount 300, both at price `100000`. -/
def c1_pool : Except String DebtPool := do
  let dp ← DebtPool.new.join rusdOracle "a" "rusd" 100
  dp.join rusdOracle "b" "rusd" 300

/-- C1 failing run: the two joins followed by a pooled redemption by `a`
(the storage byte cost is irrelevant because `a`'s collateral list is
empty). -/
def c1_run : Except String Contract := do
  let dp ← c1_pool
  let st := { baseContract with
    whitelisted_rafts := ["rusd"], raft_list := [("rusd", rusdAsset)],
    user_collaterals := [("a", [])],
    debt_pool := dp, price_oracle := rusdOracle }
  Contract.redeem_in_debtpool 1 st "a"

/-- Oracle state feeding asset `x` the price `1`. -/
def c2_oracle : PriceInfo := { prices := [("x", 1)] }

/-- C2 failing run: `a` joins asset `x` with amount 100 (genesis) and
then `b` joins `x` with amount 100 on the non-empty pool. -/
def c2_run : Except String DebtPool := do
  let dp ← DebtPool.new.join c2_oracle "a" "x" 100
  dp.join c2_oracle "b" "x" 100

/-- Oracle state feeding assets `x` and `y` the price `1` each. -/
def c3_oracle : PriceInfo := { prices := [("x", 1), ("y", 1)] }

/-- C3 state before the swap: `a` joined the pool with 1000 of asset `x`
as the genesis deposit; `x` and `y` are whitelisted rafts and the
exchange fee is the default 3 per mille. -/
def c3_state : Except String Contract := do
  let dp ← DebtPool.new.join c3_oracle "a" "x" 1000
  pure { baseContract with
    whitelisted_rafts := ["x", "y"], debt_pool := dp, price_oracle := c3_oracle }

/-- C3 failing run: `a` swaps 1000 of `x` into `y` at equal prices. -/
def c3_run : Except String Contract := do
  let st ← c3_state
  Contract.swap_in_debtpool st "a" "x" "y" 1000

/-- Collateral-token descriptor for the C6/C7 scenarios: zero decimals,
minimum collateral ratio as given. -/
def tokAsset (cr : Nat) : Asset :=
  { name := "tok", symbol := "TOK", standard := "nep141", decimals := 0,
    address := "tok", feed_address := "feed", collateral_ratio := cr, state := 0 }

/-- Raft descriptor as registered in the raft registry for C7: its
configured minimum collateral ratio is 100. -/
def rftRaftAsset : Asset :=
  { name := "rft", symbol := "RFT", standard := "nep141", decimals := 0,
    address := "rft", feed_address := "feed", collateral_ratio := 100, state := 0 }

/-- Raft descriptor as registered in the token registry (the individual
mint path reads the raft through `query_token`). -/
def rftTokAsset : Asset :=
  { name := "rft", symbol := "RFT", standard := "nep141", decimals := 0,
    address := "rft", feed_address := "feed", collateral_ratio := 0, state := 0 }

/-- C6 scenario state: prices `tok = 3`, `rft = 2`; the collateral
token's minimum collateral ratio is 100, which the mint below satisfies
(computed ratio 150). -/
def c6_state : Contract :=
  { baseContract with
    whitelisted_tokens := ["tok"],
    token_list := [("tok", tokAsset 100), ("rft", rftTokAsset)],
    whitelisted_rafts := ["rft"],
    raft_list := [("rft", rftRaftAsset)],
    price_oracle := { prices := [("tok", 3), ("rft", 2)] } }

/-- C7 scenario state: like C6 but the collateral token's configured
minimum is 300 while the raft's configured minimum (in the raft
registry) is 100; the computed collateral ratio is 150. -/
def c7_state : Contract :=
  { baseContract with
    whitelisted_tokens := ["tok"],
    token_list := [("tok", tokAsset 300), ("rft", rftTokAsset)],
    whitelisted_rafts := ["rft"],
    raft_list := [("rft", rftRaftAsset)],
    price_oracle := { prices := [("tok", 3), ("rft", 2)] } }

/-- The owner's lost-found balance of a token: the owner's deposit row,
reading a missing owner account as the fresh account. -/
def lost_found_row (st : Contract) (token_id : String) : Nat :=
  (lookupA ((st.internal_get_account st.owner_id).getD Account.new).tokens token_id).getD 0

/-- Deposit account used by the C5 witness: 7 units of `tok` already
registered, so a re-credit needs no storage check. -/
def c5_account : Account := { near_amount := 0, tokens := [("tok", 7)], storage_used := 0 }

/-- C5 witness state: `u` holds the account above; `tok` is
whitelisted. -/
def c5_state : Contract :=
  { baseContract with accounts := [("u", c5_account)], whitelisted_tokens := ["tok"] }

/-- The account `u` after the C5 witness re-credit: the deposit row went
from 7 to 57. -/
def c5_account_after : Account :=
  { near_amount := 0, tokens := [("tok", 57)], storage_used := 0 }

/-- Result of the signed subtraction helper applied to the zero-positive
balance that `query_raft_amount` always reports. -/
def wb_after_sub0 (a : Nat) : WrappedBalance :=
  if 0 ≥ a then { amount := 0 - a, is_positive := true }
  else { amount := a - 0, is_positive := false }

/-- The pool state right after a genesis join of `amount` units of raft
`addr` by `user`. -/
def dp1x (user addr : String) (amount : Nat) : DebtPool :=
  { raft_amounts := [(addr, { amount := amount, is_positive := true })],
    user_raft_amounts := [((user, addr), amount)],
    debt_ratios := [(user, RATIO_DIVISOR)] }

/-- Tail of `redeem_in_debtpool` after the debt has been settled:
migration, ratio rescale and collateral return. -/
def redeem_finish (sbc tv : Nat) (sender : String) (ids : List Nat)
    (st2 : Contract) : Except String Contract :=
  ((st2.redeem_migrate sender).debt_pool.calc_raft_total_value
      (st2.redeem_migrate sender).price_oracle) >>= fun ntv =>
    Contract.redeem_return_collateral sbc
      { st2.redeem_migrate sender with
        debt_pool := (st2.redeem_migrate sender).debt_pool.calc_all_debt_ratio tv ntv }
      sender ids

/-- C8 witness state: empty ledgers, the rUSD asset registered, caller
`a` with an empty collateral list, price one dollar. -/
def c8w_state : Contract :=
  { baseContract with
    raft_list := [("rusd", rusdAsset)],
    user_collaterals := [("a", [])],
    price_oracle := rusdOracle }

def pricedKeys (po : PriceInfo) (l : List String) : Prop :=
  ∀ r ∈ l, ∃ p, po.get_price r = .ok p

/-- C4 witness state: pooled rUSD holding 10 for caller `a`, pool total
value 3,000,000 (stored net position 30 at price 100000), `a`'s debt
ratio 500,000 (debt amount 15), and an AccountBook row of `book` rUSD. -/
def c4w_state (book : Nat) : Contract :=
  { baseContract with
    raft_list := [("rusd", rusdAsset)],
    user_collaterals := [("a", [])],
    debt_pool :=
      { raft_amounts := [("rusd", { amount := 30, is_positive := true })],
        user_raft_amounts := [(("a", "rusd"), 10), (("b", "rusd"), 20)],
        debt_ratios := [("a", 500000), ("b", 500000)] },
    account_book :=
      { raft_amounts := [("rusd", book)],
        user_raft_amounts := [(("a", "rusd"), book)] },
    price_oracle := rusdOracle }

end Crafting

open Crafting

def rowSum : List ((String × String) × Nat) → String → Nat
  | [], _ => 0
  | p :: t, r => (if p.1.2 = r then p.2 else 0) + rowSum t r

def consistent (ab : AccountBook) : Prop :=
  ∀ r, ab.query_raft_amount r = rowSum ab.user_raft_amounts r

/-- Counterexample state for the book-consistency invariant: the owner
holds the whole book total of `x`. -/
def c10_state : Contract :=
  { baseContract with
    whitelisted_rafts := ["x", "y"],
    price_oracle := { prices := [("x", 1), ("y", 1)] },
    account_book := { raft_amounts := [("x", 1000)],
                      user_raft_amounts := [(("own", "x"), 1000)] } }

/-- The state produced by the owner's own `swap_in_accountbook` of the
full `x` position in `c10_state`: the fee row written to the owner is
overwritten by the sender-row update because the two rows alias. -/
def c10_after : Contract :=
  { c10_state with
    account_book := { raft_amounts := [("x", 3), ("y", 997)],
                      user_raft_amounts := [(("own", "x"), 0), (("own", "y"), 997)] },
    debt_pool := { raft_amounts := [("x", { amount := 997, is_positive := false }),
                                    ("y", { amount := 997, is_positive := true })],
                   user_raft_amounts := [], debt_ratios := [] } }

/-- A consistent book owned by a non-owner user, used to instantiate the
preservation theorem. -/
def c10w_state : Contract :=
  { baseContract with
    whitelisted_rafts := ["x", "y"],
    price_oracle := { prices := [("x", 1), ("y", 1)] },
    account_book := { raft_amounts := [("x", 100)],
                      user_raft_amounts := [(("alice", "x"), 100)] } }

namespace Crafting

theorem lookupA_insertA_self {α β : Type} [DecidableEq α]
    (l : List (α × β)) (k : α) (v : β) :
    lookupA (insertA l k v) k = some v := by
  induction l with
  | nil => simp [insertA, lookupA]
  | cons p t ih =>
    by_cases h : p.1 = k
    · simp [insertA, lookupA, h]
    · simp [insertA, lookupA, h, ih]

theorem lookupA_insertA_ne {α β : Type} [DecidableEq α]
    (l : List (α × β)) (k k' : α) (v : β) (h : k ≠ k') :
    lookupA (insertA l k v) k' = lookupA l k' := by
  induction l with
  | nil => simp [insertA, lookupA, h]
  | cons p t ih =>
    simp only [insertA]
    by_cases hp : p.1 = k
    · rw [if_pos hp]
      simp only [lookupA, if_neg h, if_neg (hp ▸ h : ¬p.1 = k')]
    · rw [if_neg hp]
      simp only [lookupA, ih]

theorem lookupA_map_key_preserving {α β γ : Type} [DecidableEq α]
    (l : List (α × β)) (f : α × β → γ) (k : α) :
    lookupA (l.map fun p => (p.1, f p)) k
      = (lookupA l k).bind fun v =>
          (lookupA l k).map fun _ => f (k, v) := by
  induction l with
  | nil => simp [lookupA]
  | cons p t ih =>
    by_cases h : p.1 = k
    · subst h
      simp [lookupA]
    · simp [lookupA, h, ih]

theorem lookupA_eq_none_of_not_mem {α β : Type} [DecidableEq α]
    (l : List (α × β)) (k : α) (h : k ∉ l.map Prod.fst) :
    lookupA l k = none := by
  induction l with
  | nil => simp [lookupA]
  | cons p t ih =>
    simp only [List.map_cons, List.mem_cons] at h
    push_neg at h
    have hp : ¬ p.1 = k := fun he => h.1 he.symm
    simp only [lookupA, if_neg hp]
    exact ih h.2

theorem lookupA_removeA_self_of_nodup {α β : Type} [DecidableEq α]
    (l : List (α × β)) (k : α) (h : (l.map Prod.fst).Nodup) :
    lookupA (removeA l k) k = none := by
  induction l with
  | nil => simp [removeA, lookupA]
  | cons p t ih =>
    simp only [List.map_cons, List.nodup_cons] at h
    by_cases hp : p.1 = k
    · subst hp
      simp only [removeA, if_pos rfl]
      exact lookupA_eq_none_of_not_mem t p.1 h.1
    · simp only [removeA, if_neg hp, lookupA, if_neg hp]
      exact ih h.2

theorem lookupA_removeA_ne {α β : Type} [DecidableEq α]
    (l : List (α × β)) (k k' : α) (h : k ≠ k') :
    lookupA (removeA l k) k' = lookupA l k' := by
  induction l with
  | nil => simp [removeA, lookupA]
  | cons p t ih =>
    by_cases hp : p.1 = k
    · subst hp
      simp [removeA, lookupA, h]
    · simp [removeA, lookupA, hp, ih]

/-- C1: after `join(a, rusd, 100)`, `join(b, rusd, 300)` and a full
redemption by `a`, the surviving participant `b` holds the debt ratio
9,000,000: the sum of `debt_ratios` is nine times `RATIO_DIVISOR`
while the pool still has one active participant (`b`, with tracked ratio
and a non-zero pooled contribution of 300), far beyond any
integer-rounding tolerance.  Before the redemption the ratios were
`a = 250000, b = 750000`, summing exactly to `RATIO_DIVISOR`.  The drift
enters because `query_raft_amount` always returns 0, so the stored net
position (300 instead of 400 after the second join) and the redemption's
sign-flipped subtractions corrupt the total value that
`calc_all_debt_ratio` rescales by. -/
theorem C1_redemption_breaks_ratio_sum :
    c1_pool.map (fun dp => dp.debt_ratios) = .ok [("a", 250000), ("b", 750000)]
  ∧ c1_run.map (fun st => (st.debt_pool.debt_ratios.map Prod.snd).sum) = .ok 9000000
  ∧ c1_run.map (fun st => st.debt_pool.debt_ratios.length) = .ok 1
  ∧ c1_run.map (fun st => st.debt_pool.query_user_raft_amount "b" "rusd") = .ok 300
  ∧ RATIO_DIVISOR = 1000000 := by
  refine ⟨by decide, by decide, by decide, by decide, rfl⟩

/-- C2: on the second join the asset's net position is overwritten with
the joining amount instead of increasing by it.  After `a` joins with
100 the stored net position is `+100`; after `b` joins with another 100
it is still `+100` where the claim requires `+200` — because
`query_raft_amount` returns 0, `calc_add_raft_amount` adds the joining
amount to 0.  The per-user contributions and the one-pass ratio
redistribution (both 500,000) behave as the claim states. -/
theorem C2_join_overwrites_net_position :
    (DebtPool.new.join c2_oracle "a" "x" 100).map (fun dp => lookupA dp.raft_amounts "x")
      = .ok (some { amount := 100, is_positive := true })
  ∧ c2_run.map (fun dp => lookupA dp.raft_amounts "x")
      = .ok (some { amount := 100, is_positive := true })
  ∧ c2_run.map (fun dp => lookupA dp.raft_amounts "x")
      ≠ .ok (some { amount := 200, is_positive := true })
  ∧ c2_run.map (fun dp => dp.query_user_raft_amount "a" "x") = .ok 100
  ∧ c2_run.map (fun dp => dp.query_user_raft_amount "b" "x") = .ok 100
  ∧ c2_run.map (fun dp => dp.query_debt_ratio "a") = .ok 500000
  ∧ c2_run.map (fun dp => dp.query_debt_ratio "b") = .ok 500000 := by
  refine ⟨by decide, by decide, by decide, by decide, by decide, by decide, by decide⟩

/-- C3: the pool swap does not conserve the pool's total value.  Before
the swap `calc_raft_total_value` is 1000; afterwards it is 1994 (the net
position in `x` becomes `-997` instead of `+3` because
`query_raft_amount` feeds 0 to `calc_sub_raft_amount`, and the unsigned
total counts its magnitude), a change of 994 where the exchange fee is
only 3.  The two parts of the claim that do hold are also recorded: the
caller's own claim value moves from 1000 to exactly `1000 - 3` (invariant
up to the fee), and `debt_ratios` is untouched by the swap. -/
theorem C3_swap_total_value_not_conserved :
    (c3_state.bind (fun st => st.debt_pool.calc_raft_total_value st.price_oracle))
      = .ok 1000
  ∧ (c3_run.bind (fun st => st.debt_pool.calc_raft_total_value st.price_oracle))
      = .ok 1994
  ∧ (c3_run.bind (fun st => st.debt_pool.calc_user_raft_total_value st.price_oracle "a"))
      = .ok 997
  ∧ c3_run.map (fun st => st.debt_pool.debt_ratios)
      = c3_state.map (fun st => st.debt_pool.debt_ratios)
  ∧ c3_run.map (fun st => st.debt_pool.raft_amounts)
      = .ok [("x", { amount := 997, is_positive := false }),
             ("y", { amount := 997, is_positive := true })] := by
  refine ⟨by decide, by decide, by decide, by decide, by decide⟩

/-- C9: `DebtPool::query_raft_amount` returns the zero balance
`(amount 0, positive)` for every pool state and every raft identifier —
in particular also when a non-zero net position is stored for that raft —
so every caller of it reads 0 as the current net position.  The source
looks the entry up and drops the unwrapped value on the floor (the `if`
body is a bare `opt_wbalance.unwrap();` with no `return`), then
unconditionally returns the zero balance. -/
theorem C9_query_raft_amount_always_zero (dp : DebtPool) (raft_id : String) :
    dp.query_raft_amount raft_id = { amount := 0, is_positive := true } :=
  rfl

/-- C9 witness: instantiation at a pool that stores the non-zero net
position `+77` for raft `x`, which `query_raft_amount` still reports
as the zero balance. -/
theorem C9_query_raft_amount_always_zero_witness :
    DebtPool.query_raft_amount
      { raft_amounts := [("x", { amount := 77, is_positive := true })],
        user_raft_amounts := [], debt_ratios := [] } "x"
      = { amount := 0, is_positive := true } :=
  C9_query_raft_amount_always_zero
    { raft_amounts := [("x", { amount := 77, is_positive := true })],
      user_raft_amounts := [], debt_ratios := [] } "x"

/-- C6: `mint_callback` performs the ledger mutation even when the
inbound collateral transfer failed.  The callback never inspects the
promise result: its outcome on a failed transfer is identical to its
outcome on a successful one, and on the failed transfer it still mints
100 `rft` into the AccountBook and appends a collateral record, where the
claim requires DebtPool, AccountBook and the collateral log to be left
unchanged. -/
theorem C6_mint_callback_mutates_on_failed_transfer :
    Contract.mint_callback c6_state "a" "tok" 100 "rft" 100 false 5 6 TxResult.failed
      = Contract.mint_callback c6_state "a" "tok" 100 "rft" 100 false 5 6 TxResult.successful
  ∧ (Contract.mint_callback c6_state "a" "tok" 100 "rft" 100 false 5 6 TxResult.failed).map
      (fun st => (st.account_book.query_user_raft_amount "a" "rft",
                  st.account_book.query_raft_amount "rft",
                  st.collaterals.length))
      = .ok (100, 100, 1)
  ∧ c6_state.account_book.query_user_raft_amount "a" "rft" = 0
  ∧ c6_state.account_book.query_raft_amount "rft" = 0
  ∧ c6_state.collaterals.length = 0 := by
  refine ⟨rfl, by decide, rfl, rfl, rfl⟩

/-- C7 counterexample: the computed collateral ratio is 150, which is at
least the raft asset's configured minimum of 100, yet the individual
mint path rejects the mint — the source compares the ratio against the
collateral token's configured minimum (300), not the raft's, so the
claim's acceptance condition is false at this input.  (The raft's
descriptor is also read from the token registry, not the raft
registry.) -/
theorem C7_counterexample_threshold_is_tokens :
    (3 * 100 * 10 ^ rftTokAsset.decimals * 100) /
        (2 * 100 * 10 ^ (tokAsset 300).decimals) = 150
  ∧ c7_state.query_raft "rft" = some rftRaftAsset
  ∧ rftRaftAsset.collateral_ratio = 100
  ∧ (100 : Nat) ≤ 150
  ∧ Contract.mint_callback c7_state "a" "tok" 100 "rft" 100 false 5 6 TxResult.failed
      = .error "collateral ratio below minimum"
  ∧ (tokAsset 300).collateral_ratio = 300 := by
  refine ⟨by decide, by decide, rfl, by decide, by decide, rfl⟩

/-- C7 (amended): on the individual mint path the callback reads both
descriptors from the token registry (`query_token` for the collateral
token and for the raft), computes `collateral_ratio = (price(token) *
token_amount * 10^raft_decimals * 100) / (price(raft) * raft_amount *
10^token_decimals)` with the decimals of those two registry entries,
requires it to be at least the collateral token asset's configured
minimum collateral ratio, and only on success calls `AccountBook.mint`
for the requested raft amount (appending the collateral record);
otherwise the call aborts with no ledger mutation. -/
theorem C7_amended_individual_mint_threshold (st : Contract) (sender token : String)
    (token_amount : Nat) (raft : String) (raft_amount bi ct : Nat) (r : TxResult)
    (ta ra : Asset) (pt pr : Nat)
    (hta : st.query_token token = some ta)
    (hra : st.query_token raft = some ra)
    (hpt : st.price_oracle.get_price token = .ok pt)
    (hpr : st.price_oracle.get_price raft = .ok pr)
    (hden : pr * raft_amount * 10 ^ ta.decimals ≠ 0) :
    (ta.collateral_ratio ≤
        pt * token_amount * 10 ^ ra.decimals * 100 / (pr * raft_amount * 10 ^ ta.decimals) →
      Contract.mint_callback st sender token token_amount raft raft_amount false bi ct r
        = .ok { st with
            account_book := st.account_book.mint sender raft raft_amount,
            collaterals := st.collaterals ++
              [{ issuer := sender, token := token, token_amount := token_amount,
                 raft := raft, raft_amount := raft_amount, join_debtpool := false,
                 block_index := bi, create_time := ct, state := 0 }] })
  ∧ (pt * token_amount * 10 ^ ra.decimals * 100 / (pr * raft_amount * 10 ^ ta.decimals)
        < ta.collateral_ratio →
      Contract.mint_callback st sender token token_amount raft raft_amount false bi ct r
        = .error "collateral ratio below minimum") := by
  unfold Contract.mint_callback
  simp only [hta, hra, hpt, hpr, Bind.bind, Except.bind, if_neg hden, Bool.false_eq_true,
    if_false]
  constructor
  · intro h
    rw [if_neg (by omega)]
    rfl
  · intro h
    rw [if_pos h]
    rfl

/-- C7 amended witness: at the concrete state with token minimum 100 and
computed ratio 150 the mint succeeds and mints 100 `rft` into the
AccountBook. -/
theorem C7_amended_individual_mint_threshold_witness :
    Contract.mint_callback c6_state "a" "tok" 100 "rft" 100 false 5 6 TxResult.failed
      = .ok { c6_state with
          account_book := c6_state.account_book.mint "a" "rft" 100,
          collaterals := c6_state.collaterals ++
            [{ issuer := "a", token := "tok", token_amount := 100,
               raft := "rft", raft_amount := 100, join_debtpool := false,
               block_index := 5, create_time := 6, state := 0 }] } :=
  (C7_amended_individual_mint_threshold c6_state "a" "tok" 100 "rft" 100 5 6
    TxResult.failed (tokAsset 100) rftTokAsset 3 2
    (by decide) (by decide) (by decide) (by decide) (by decide)).1 (by decide)

theorem deposit_row_adds (a : Account) (token : String) (amount : Nat) :
    (lookupA (a.deposit token amount).tokens token).getD 0
      = amount + (lookupA a.tokens token).getD 0 := by
  unfold Account.deposit
  cases h : lookupA a.tokens token with
  | none => simp [h, lookupA_insertA_self]
  | some x => simp [h, lookupA_insertA_self]

theorem storage_check_row_adds (sbc : Nat) (a : Account) (token : String) (amount : Nat)
    (a' : Account) (h : a.deposit_with_storage_check sbc token amount = (a', true)) :
    (lookupA a'.tokens token).getD 0 = (lookupA a.tokens token).getD 0 + amount := by
  unfold Account.deposit_with_storage_check at h
  cases hl : lookupA a.tokens token with
  | some x =>
      rw [hl] at h
      cases h
      simp [lookupA_insertA_self, hl]
  | none =>
      rw [hl] at h
      by_cases hs : Account.storage_usage sbc { a with tokens := insertA a.tokens token amount } ≤ a.near_amount
      · rw [if_pos hs] at h
        cases h
        simp [lookupA_insertA_self, hl]
      · rw [if_neg hs] at h
        cases h

/-- C5: behaviour of the compensation callback for an outbound transfer
of `amount`.  On a successful transfer the state is unchanged.  On a
failed transfer: when the recipient's account exists and the storage
check passes, exactly `amount` is re-credited to that account's deposit
row; when the account does not exist or cannot afford the storage, the
amount is deposited into the owner's lost-found row provided the token is
whitelisted, and the callback hard-fails when it is not. -/
theorem C5_compensation_callback (sbc : Nat) (st : Contract)
    (token_id sender_id : String) (amount : Nat) :
    st.exchange_callback_post_withdraw sbc token_id sender_id amount TxResult.successful = .ok st
  ∧ (∀ acc acc', st.internal_get_account sender_id = some acc →
      acc.deposit_with_storage_check sbc token_id amount = (acc', true) →
      st.exchange_callback_post_withdraw sbc token_id sender_id amount TxResult.failed
        = .ok { st with accounts := insertA st.accounts sender_id acc' }
      ∧ (lookupA acc'.tokens token_id).getD 0
          = (lookupA acc.tokens token_id).getD 0 + amount)
  ∧ ((st.internal_get_account sender_id = none ∨
      ∃ acc, st.internal_get_account sender_id = some acc ∧
        (acc.deposit_with_storage_check sbc token_id amount).2 = false) →
      (st.whitelisted_tokens.contains token_id = true →
        ∃ st', st.exchange_callback_post_withdraw sbc token_id sender_id amount TxResult.failed
            = .ok st'
          ∧ lost_found_row st' token_id = amount + lost_found_row st token_id)
      ∧ (st.whitelisted_tokens.contains token_id = false →
        st.exchange_callback_post_withdraw sbc token_id sender_id amount TxResult.failed
          = .error "non-whitelisted token can NOT deposit into lost-found")) := by
  refine ⟨rfl, ?_, ?_⟩
  · intro acc acc' hacc hchk
    constructor
    · unfold Contract.exchange_callback_post_withdraw
      rw [hacc]
      simp [hchk]
    · exact storage_check_row_adds sbc acc token_id amount acc' hchk
  · intro hfail
    have hlf : st.exchange_callback_post_withdraw sbc token_id sender_id amount TxResult.failed
        = st.internal_lostfound token_id amount := by
      rcases hfail with hnone | ⟨acc, hacc, hchk⟩
      · unfold Contract.exchange_callback_post_withdraw
        rw [hnone]
      · rcases hp : Account.deposit_with_storage_check sbc acc token_id amount with ⟨a2, ok2⟩
        have hok : ok2 = false := by rw [hp] at hchk; exact hchk
        unfold Contract.exchange_callback_post_withdraw
        rw [hacc]
        simp [hp, hok]
    constructor
    · intro hwl
      rw [hlf]
      unfold Contract.internal_lostfound
      rw [hwl]
      simp only [if_true]
      refine ⟨_, rfl, ?_⟩
      unfold lost_found_row
      simp only [Contract.internal_get_account, lookupA_insertA_self, Option.getD_some]
      exact deposit_row_adds _ token_id amount
    · intro hwl
      rw [hlf]
      unfold Contract.internal_lostfound
      rw [hwl]
      simp

/-- C5 witness: a failed outbound transfer of 50 `tok` to the registered
account `u` re-credits exactly 50, taking the deposit row from 7
to 57. -/
theorem C5_compensation_callback_witness :
    Contract.exchange_callback_post_withdraw 1 c5_state "tok" "u" 50 TxResult.failed
      = .ok { c5_state with accounts := insertA c5_state.accounts "u" c5_account_after }
  ∧ (lookupA c5_account_after.tokens "tok").getD 0
      = (lookupA c5_account.tokens "tok").getD 0 + 50 :=
  (C5_compensation_callback 1 c5_state "tok" "u" 50).2.1 c5_account
    c5_account_after (by decide) (by decide)

/-! Generic helper lemmas for evaluating the redemption pipeline. -/
theorem lookupA_cons_self {α β : Type} [DecidableEq α] (t : List (α × β)) (k : α) (v : β) :
    lookupA ((k, v) :: t) k = some v := by simp [lookupA]

theorem insertA_cons_self {α β : Type} [DecidableEq α] (t : List (α × β)) (k : α) (v v' : β) :
    insertA ((k, v) :: t) k v' = (k, v') :: t := by simp [insertA]

theorem removeA_cons_self {α β : Type} [DecidableEq α] (t : List (α × β)) (k : α) (v : β) :
    removeA ((k, v) :: t) k = t := by simp [removeA]

theorem foldl_pres {α σ γ : Type} (g : σ → γ) (f : σ → α → σ)
    (h : ∀ s a, g (f s a) = g s) : ∀ (l : List α) (s : σ), g (l.foldl f s) = g s := by
  intro l
  induction l with
  | nil => intro s; rfl
  | cons a t ih => intro s; rw [List.foldl_cons, ih (f s a), h s a]

theorem ok_bind {ε α β : Type} (a : α) (f : α → Except ε β) :
    ((Except.ok a : Except ε α) >>= f) = f a := rfl

theorem query_raft_amount_zero (dp : DebtPool) (r : String) :
    dp.query_raft_amount r = { amount := 0, is_positive := true } := rfl

theorem calc_sub_debt_ratios (dp : DebtPool) (r : String) (wb : WrappedBalance) (a : Nat) :
    (dp.calc_sub_raft_amount r wb a).debt_ratios = dp.debt_ratios := by
  unfold DebtPool.calc_sub_raft_amount DebtPool.insert_raft_amount
  split <;> (try split) <;> rfl

theorem calc_add_debt_ratios (dp : DebtPool) (r : String) (wb : WrappedBalance) (a : Nat) :
    (dp.calc_add_raft_amount r wb a).debt_ratios = dp.debt_ratios := by
  unfold DebtPool.calc_add_raft_amount DebtPool.insert_raft_amount
  split <;> (try split) <;> rfl

theorem migrate_step_debt_ratios (sender : String) (st : Contract) (p : String × Nat) :
    (Contract.redeem_migrate_step sender st p).debt_pool.debt_ratios
      = st.debt_pool.debt_ratios := by
  unfold Contract.redeem_migrate_step
  simp [DebtPool.remove_user_raft_amount, calc_sub_debt_ratios]

theorem migrate_debt_ratios (st : Contract) (sender : String) :
    (st.redeem_migrate sender).debt_pool.debt_ratios = st.debt_pool.debt_ratios :=
  foldl_pres (fun s => s.debt_pool.debt_ratios) (Contract.redeem_migrate_step sender)
    (migrate_step_debt_ratios sender) _ st

theorem migrate_step_price_oracle (sender : String) (st : Contract) (p : String × Nat) :
    (Contract.redeem_migrate_step sender st p).price_oracle = st.price_oracle := by
  simp [Contract.redeem_migrate_step]

theorem migrate_price_oracle (st : Contract) (sender : String) :
    (st.redeem_migrate sender).price_oracle = st.price_oracle :=
  foldl_pres (fun s => s.price_oracle) (Contract.redeem_migrate_step sender)
    (migrate_step_price_oracle sender) _ st

theorem calc_sub_zero_pos (dp : DebtPool) (r : String) (a : Nat) :
    dp.calc_sub_raft_amount r { amount := 0, is_positive := true } a
      = dp.insert_raft_amount r (wb_after_sub0 a) := by
  unfold DebtPool.calc_sub_raft_amount wb_after_sub0
  by_cases h : 0 ≥ a
  · simp [h]
  · simp [h]

theorem calc_all_debt_ratios_nil (dp : DebtPool) (o n : Nat) (h : dp.debt_ratios = []) :
    (dp.calc_all_debt_ratio o n).debt_ratios = [] := by
  unfold DebtPool.calc_all_debt_ratio
  split
  · exact h
  · simp [h]

theorem return_collateral_nil (sbc : Nat) (st : Contract) (sender : String) :
    st.redeem_return_collateral sbc sender [] = .ok st := rfl

theorem redeem_in_debtpool_unfold (sbc : Nat) (st : Contract) (sender : String)
    (ru : Asset) (ids : List Nat) (tv : Nat)
    (h_run : st.assert_contract_running = .ok ())
    (h_rusd : st.query_rusd = some ru)
    (h_ids : lookupA st.user_collaterals sender = some ids)
    (h_tv : st.debt_pool.calc_raft_total_value st.price_oracle = .ok tv) :
    Contract.redeem_in_debtpool sbc st sender
      = (if 0 < tv * st.debt_pool.query_debt_ratio sender / RATIO_DIVISOR then
          st.redeem_settle_debt sender ru.address
              (tv * st.debt_pool.query_debt_ratio sender / RATIO_DIVISOR)
            >>= redeem_finish sbc tv sender ids
        else
          pure st >>= redeem_finish sbc tv sender ids) := by
  unfold Contract.redeem_in_debtpool
  rw [h_run, ok_bind, h_rusd, h_ids, h_tv]
  rfl

theorem c8_settle (st : Contract) (user addr : String) (amount price : Nat)
    (h_branch : price * amount ≤ amount * PRICE_PRECISION) :
    Contract.redeem_settle_debt { st with debt_pool := dp1x user addr amount }
        user addr (price * amount)
      = .ok { st with debt_pool :=
          { raft_amounts := [(addr, wb_after_sub0 (price * amount / PRICE_PRECISION))],
            user_raft_amounts := [((user, addr), amount - price * amount / PRICE_PRECISION)],
            debt_ratios := [] } } := by
  unfold Contract.redeem_settle_debt
  simp only [dp1x, DebtPool.query_user_raft_amount, lookupA_cons_self, Option.getD_some,
    if_pos h_branch, DebtPool.insert_user_raft_amount, insertA_cons_self,
    query_raft_amount_zero, calc_sub_zero_pos, DebtPool.insert_raft_amount,
    DebtPool.remove_debt_ratio, removeA_cons_self]
  rfl

/-- C8: single-depositor round trip.  A genesis join on the empty pool by
`user` with `amount` units of the settlement raft sets the net position to
`+amount`, the user's contribution to `amount` and the debt ratio to
`RATIO_DIVISOR` (100% of the pool); an immediately following pooled
redemption succeeds, removes the user's debt-ratio entry (the ratio map
becomes empty) and thereby reduces the user's claim
`total * ratio / RATIO_DIVISOR` to zero.  The hypotheses ask for a
running contract, a registered rUSD settlement asset priced at most
`PRICE_PRECISION` (so the pooled holding covers the debt), a positive
price and amount, and an empty collateral list for the caller. -/
theorem C8_single_depositor_round_trip (sbc : Nat) (st : Contract) (user : String) (amount price : Nat) (ru : Asset)
    (h_empty : st.debt_pool = DebtPool.new)
    (h_run : st.state = RunningState.Running)
    (h_rusd : st.query_rusd = some ru)
    (h_price : st.price_oracle.get_price ru.address = .ok price)
    (h_ids : lookupA st.user_collaterals user = some [])
    (h_amount : 0 < amount) (h_price_pos : 0 < price)
    (h_branch : price ≤ PRICE_PRECISION) :
    st.debt_pool.join st.price_oracle user ru.address amount
        = .ok (dp1x user ru.address amount)
  ∧ (dp1x user ru.address amount).query_user_raft_amount user ru.address = amount
  ∧ (dp1x user ru.address amount).query_debt_ratio user = RATIO_DIVISOR
  ∧ ∃ st', Contract.redeem_in_debtpool sbc { st with debt_pool := dp1x user ru.address amount } user
        = .ok st'
      ∧ st'.debt_pool.debt_ratios = []
      ∧ lookupA st'.debt_pool.debt_ratios user = none
      ∧ (∀ tv, tv * st'.debt_pool.query_debt_ratio user / RATIO_DIVISOR = 0) := by
  refine ⟨by rw [h_empty]; rfl, by simp [dp1x, DebtPool.query_user_raft_amount, lookupA_cons_self],
    by simp [dp1x, DebtPool.query_debt_ratio, lookupA_cons_self], ?_⟩
  set st1 : Contract := { st with debt_pool := dp1x user ru.address amount } with hst1
  have h_run1 : st1.assert_contract_running = .ok () := by
    unfold Contract.assert_contract_running
    rw [show st1.state = RunningState.Running from h_run]
  have h_rusd1 : st1.query_rusd = some ru := h_rusd
  have h_ids1 : lookupA st1.user_collaterals user = some [] := h_ids
  have h_udr : st1.debt_pool.query_debt_ratio user = RATIO_DIVISOR := by
    simp [hst1, dp1x, DebtPool.query_debt_ratio, lookupA_cons_self]
  have h_tv : st1.debt_pool.calc_raft_total_value st1.price_oracle = .ok (0 + price * amount) := by
    simp [hst1, DebtPool.calc_raft_total_value, DebtPool.calc_raft_value, h_price,
      List.foldlM, Bind.bind, Except.bind, Pure.pure, Except.pure, dp1x]
  have h_ud : (0 + price * amount) * RATIO_DIVISOR / RATIO_DIVISOR = price * amount := by
    rw [Nat.zero_add, Nat.mul_div_cancel _ (by norm_num [RATIO_DIVISOR])]
  have h_pos : 0 < price * amount := Nat.mul_pos h_price_pos h_amount
  have h_branch2 : price * amount ≤ amount * PRICE_PRECISION := by
    rw [Nat.mul_comm amount PRICE_PRECISION]
    exact Nat.mul_le_mul_right amount h_branch
  have h_settle := c8_settle st user ru.address amount price h_branch2
  set uda := price * amount / PRICE_PRECISION with huda
  set m := amount - uda with hmdef
  set dpS : DebtPool :=
    { raft_amounts := [(ru.address, wb_after_sub0 uda)],
      user_raft_amounts := [((user, ru.address), m)],
      debt_ratios := [] } with hdpS
  set stS : Contract := { st with debt_pool := dpS } with hstS
  have h_ratS : stS.debt_pool.debt_ratios = [] := rfl
  have h_migrat : (stS.redeem_migrate user).debt_pool.debt_ratios = [] := by
    rw [migrate_debt_ratios]
  have h_snap : stS.debt_pool.query_user_raft_amounts user
      = if m = 0 then [] else [(ru.address, m)] := by
    simp only [hstS, hdpS, DebtPool.query_user_raft_amounts, DebtPool.query_user_raft_amount,
      lookupA_cons_self, Option.getD_some, List.filterMap]
    by_cases hm : m = 0
    · simp [hm]
    · simp [hm]
  have h_ntv : ∃ ntv, (stS.redeem_migrate user).debt_pool.calc_raft_total_value
      (stS.redeem_migrate user).price_oracle = .ok ntv := by
    by_cases hm : m = 0
    · have h_mig : stS.redeem_migrate user = stS := by
        unfold Contract.redeem_migrate
        rw [h_snap, if_pos hm]
        rfl
      refine ⟨0 + price * (wb_after_sub0 uda).amount, ?_⟩
      rw [h_mig]
      simp [hstS, hdpS, DebtPool.calc_raft_total_value, DebtPool.calc_raft_value, h_price,
        List.foldlM, Bind.bind, Except.bind, Pure.pure, Except.pure]
    · have h_mig : stS.redeem_migrate user
          = Contract.redeem_migrate_step user stS (ru.address, m) := by
        unfold Contract.redeem_migrate
        rw [h_snap, if_neg hm]
        rfl
      have h_step : (Contract.redeem_migrate_step user stS (ru.address, m)).debt_pool.raft_amounts
          = [(ru.address, wb_after_sub0 m)] := by
        unfold Contract.redeem_migrate_step
        simp only [hstS, hdpS, query_raft_amount_zero, calc_sub_zero_pos,
          DebtPool.insert_raft_amount, insertA_cons_self, DebtPool.remove_user_raft_amount,
          removeA_cons_self]
      have h_po : (Contract.redeem_migrate_step user stS (ru.address, m)).price_oracle
          = st.price_oracle := migrate_step_price_oracle user stS (ru.address, m)
      refine ⟨0 + price * (wb_after_sub0 m).amount, ?_⟩
      rw [h_mig]
      unfold DebtPool.calc_raft_total_value
      rw [h_step, h_po]
      simp [DebtPool.calc_raft_value, h_price, List.foldlM, Bind.bind, Except.bind,
        Pure.pure, Except.pure]
  obtain ⟨ntv, h_ntv⟩ := h_ntv
  rw [redeem_in_debtpool_unfold sbc st1 user ru [] (0 + price * amount) h_run1 h_rusd1 h_ids1 h_tv]
  rw [h_udr, h_ud, if_pos h_pos]
  rw [h_settle]
  rw [ok_bind]
  unfold redeem_finish
  rw [h_ntv, ok_bind, return_collateral_nil]
  refine ⟨_, rfl, ?_, ?_, ?_⟩
  · exact calc_all_debt_ratios_nil _ _ _ h_migrat
  · rw [calc_all_debt_ratios_nil _ _ _ h_migrat]
    rfl
  · intro tv
    have hq : DebtPool.query_debt_ratio
        ((stS.redeem_migrate user).debt_pool.calc_all_debt_ratio (0 + price * amount) ntv)
        user = 0 := by
      unfold DebtPool.query_debt_ratio
      rw [calc_all_debt_ratios_nil _ _ _ h_migrat]
      rfl
    rw [hq]
    simp

/-- C8 witness: the round trip at amount 100 and price 100000. -/
theorem C8_single_depositor_round_trip_witness :
    c8w_state.debt_pool.join c8w_state.price_oracle "a" rusdAsset.address 100
        = .ok (dp1x "a" rusdAsset.address 100)
  ∧ (dp1x "a" rusdAsset.address 100).query_user_raft_amount "a" rusdAsset.address = 100
  ∧ (dp1x "a" rusdAsset.address 100).query_debt_ratio "a" = RATIO_DIVISOR
  ∧ ∃ st', Contract.redeem_in_debtpool 1
        { c8w_state with debt_pool := dp1x "a" rusdAsset.address 100 } "a" = .ok st'
      ∧ st'.debt_pool.debt_ratios = []
      ∧ lookupA st'.debt_pool.debt_ratios "a" = none
      ∧ (∀ tv, tv * st'.debt_pool.query_debt_ratio "a" / RATIO_DIVISOR = 0) :=
  C8_single_depositor_round_trip 1 c8w_state "a" 100 100000 rusdAsset
    rfl rfl (by decide) (by decide) (by decide) (by decide) (by decide) (by decide)

theorem error_bind {ε α β : Type} (e : ε) (f : α → Except ε β) :
    ((Except.error e : Except ε α) >>= f) = Except.error e := rfl

theorem settle_shortfall (st : Contract) (sender rusd : String) (ud : Nat)
    (h_short : ¬ ud ≤ st.debt_pool.query_user_raft_amount sender rusd * PRICE_PRECISION) :
    (st.account_book.query_user_raft_amount sender rusd
        + st.debt_pool.query_user_raft_amount sender rusd < ud / PRICE_PRECISION →
      st.redeem_settle_debt sender rusd ud = .error "insufficient balance")
  ∧ (ud / PRICE_PRECISION ≤ st.debt_pool.query_user_raft_amount sender rusd
        + st.account_book.query_user_raft_amount sender rusd →
      st.redeem_settle_debt sender rusd ud
        = .ok { st with
            debt_pool :=
              ((st.debt_pool.remove_user_raft_amount sender rusd).insert_raft_amount rusd
                (wb_after_sub0 (st.debt_pool.query_user_raft_amount sender rusd))).remove_debt_ratio
                sender,
            account_book :=
              ((st.account_book.insert_user_raft_amount sender rusd
                  (st.account_book.query_user_raft_amount sender rusd
                    - (ud / PRICE_PRECISION - st.debt_pool.query_user_raft_amount sender rusd))).insert_raft_amount
                rusd
                ((st.account_book.insert_user_raft_amount sender rusd
                    (st.account_book.query_user_raft_amount sender rusd
                      - (ud / PRICE_PRECISION
                        - st.debt_pool.query_user_raft_amount sender rusd))).query_raft_amount
                  rusd
                  - (ud / PRICE_PRECISION
                    - st.debt_pool.query_user_raft_amount sender rusd))) }) := by
  constructor
  · intro h
    unfold Contract.redeem_settle_debt
    rw [if_neg h_short]
    rw [if_pos (by omega)]
    rfl
  · intro h
    unfold Contract.redeem_settle_debt
    rw [if_neg h_short]
    rw [if_neg (by omega)]
    simp only [DebtPool.remove_user_raft_amount, DebtPool.insert_raft_amount,
      DebtPool.remove_debt_ratio, query_raft_amount_zero, calc_sub_zero_pos]
    rfl

theorem migrate_step_pool_rows (sender : String) (st : Contract) (p : String × Nat) :
    (Contract.redeem_migrate_step sender st p).debt_pool.user_raft_amounts
      = removeA st.debt_pool.user_raft_amounts (sender, p.1) := by
  unfold Contract.redeem_migrate_step
  simp only [query_raft_amount_zero, calc_sub_zero_pos, DebtPool.insert_raft_amount,
    DebtPool.remove_user_raft_amount]

theorem migrate_step_book_rows (sender : String) (st : Contract) (p : String × Nat) :
    (Contract.redeem_migrate_step sender st p).account_book.user_raft_amounts
      = insertA st.account_book.user_raft_amounts (sender, p.1)
          ((lookupA st.account_book.user_raft_amounts (sender, p.1)).getD 0 + p.2) := by
  unfold Contract.redeem_migrate_step
  simp only [query_raft_amount_zero, calc_sub_zero_pos, DebtPool.insert_raft_amount,
    DebtPool.remove_user_raft_amount, AccountBook.insert_raft_amount,
    AccountBook.insert_user_raft_amount, AccountBook.query_user_raft_amount]

theorem migrate_fold_pool_row (sender rusd : String) :
    ∀ (l : List (String × Nat)) (st : Contract), (∀ p ∈ l, p.1 ≠ rusd) →
      lookupA (l.foldl (Contract.redeem_migrate_step sender) st).debt_pool.user_raft_amounts
          (sender, rusd)
        = lookupA st.debt_pool.user_raft_amounts (sender, rusd) := by
  intro l
  induction l with
  | nil => intro st h; rfl
  | cons p t ih =>
      intro st h
      rw [List.foldl_cons, ih _ (fun q hq => h q (List.mem_cons_of_mem p hq))]
      rw [migrate_step_pool_rows]
      exact lookupA_removeA_ne _ _ _ (by
        intro he
        exact h p (List.mem_cons_self p t) (congrArg Prod.snd he))

theorem migrate_fold_book_row (sender rusd : String) :
    ∀ (l : List (String × Nat)) (st : Contract), (∀ p ∈ l, p.1 ≠ rusd) →
      lookupA (l.foldl (Contract.redeem_migrate_step sender) st).account_book.user_raft_amounts
          (sender, rusd)
        = lookupA st.account_book.user_raft_amounts (sender, rusd) := by
  intro l
  induction l with
  | nil => intro st h; rfl
  | cons p t ih =>
      intro st h
      rw [List.foldl_cons, ih _ (fun q hq => h q (List.mem_cons_of_mem p hq))]
      rw [migrate_step_book_rows]
      exact lookupA_insertA_ne _ _ _ _ (by
        intro he
        exact h p (List.mem_cons_self p t) (congrArg Prod.snd he))

theorem mem_query_user_raft_amounts (dp : DebtPool) (user : String) (p : String × Nat)
    (h : p ∈ dp.query_user_raft_amounts user) :
    dp.query_user_raft_amount user p.1 = p.2 ∧ p.2 ≠ 0 := by
  unfold DebtPool.query_user_raft_amounts at h
  obtain ⟨q, hq, he⟩ := List.mem_filterMap.mp h
  by_cases hz : dp.query_user_raft_amount user q.1 ≠ 0
  · rw [if_pos hz] at he
    cases he
    exact ⟨rfl, hz⟩
  · rw [if_neg hz] at he
    cases he

theorem calc_total_ok (po : PriceInfo) (dp : DebtPool)
    (h : pricedKeys po (dp.raft_amounts.map Prod.fst)) :
    ∃ v, dp.calc_raft_total_value po = .ok v := by
  unfold DebtPool.calc_raft_total_value
  suffices hgen : ∀ (l : List (String × WrappedBalance)), pricedKeys po (l.map Prod.fst) →
      ∀ acc : Nat, ∃ v, (l.foldlM (fun total p => do
        let v ← DebtPool.calc_raft_value po p.1 p.2.amount
        pure (total + v)) acc : Except String Nat) = .ok v by
    exact hgen dp.raft_amounts h 0
  intro l
  induction l with
  | nil => intro _ acc; exact ⟨acc, rfl⟩
  | cons p t ih =>
      intro hl acc
      obtain ⟨pr, hpr⟩ := hl p.1 (by simp)
      obtain ⟨v, hv⟩ := ih (fun r hr => hl r (by simp [hr])) (acc + pr * p.2.amount)
      refine ⟨v, ?_⟩
      rw [List.foldlM_cons]
      unfold DebtPool.calc_raft_value
      rw [hpr]
      exact hv

theorem keys_insertA {α β : Type} [DecidableEq α] (l : List (α × β)) (k : α) (v : β) :
    ∀ r ∈ (insertA l k v).map Prod.fst, r = k ∨ r ∈ l.map Prod.fst := by
  induction l with
  | nil =>
      intro r hr
      simp [insertA] at hr
      exact Or.inl hr
  | cons p t ih =>
      intro r hr
      by_cases hp : p.1 = k
      · rw [show insertA (p :: t) k v = (k, v) :: t by simp [insertA, hp]] at hr
        simp only [List.map_cons, List.mem_cons] at hr
        rcases hr with hr | hr
        · exact Or.inl hr
        · exact Or.inr (by simp only [List.map_cons, List.mem_cons]; exact Or.inr hr)
      · rw [show insertA (p :: t) k v = p :: insertA t k v by simp [insertA, hp]] at hr
        simp only [List.map_cons, List.mem_cons] at hr
        rcases hr with hr | hr
        · exact Or.inr (by simp only [List.map_cons, List.mem_cons]; exact Or.inl hr)
        · rcases ih r hr with h1 | h1
          · exact Or.inl h1
          · exact Or.inr (by simp only [List.map_cons, List.mem_cons]; exact Or.inr h1)

theorem migrate_step_pool_keys (sender : String) (st : Contract) (p : String × Nat) :
    (Contract.redeem_migrate_step sender st p).debt_pool.raft_amounts
      = insertA st.debt_pool.raft_amounts p.1 (wb_after_sub0 p.2) := by
  unfold Contract.redeem_migrate_step
  simp only [query_raft_amount_zero, calc_sub_zero_pos, DebtPool.insert_raft_amount,
    DebtPool.remove_user_raft_amount]

theorem migrate_fold_priced (sender : String) (po : PriceInfo) :
    ∀ (l : List (String × Nat)) (st : Contract),
      pricedKeys po (st.debt_pool.raft_amounts.map Prod.fst) →
      (∀ p ∈ l, ∃ pr, po.get_price p.1 = .ok pr) →
      pricedKeys po ((l.foldl (Contract.redeem_migrate_step sender) st).debt_pool.raft_amounts.map
        Prod.fst) := by
  intro l
  induction l with
  | nil => intro st h _; exact h
  | cons p t ih =>
      intro st h hl
      rw [List.foldl_cons]
      refine ih _ ?_ (fun q hq => hl q (List.mem_cons_of_mem p hq))
      intro r hr
      rw [migrate_step_pool_keys] at hr
      rcases keys_insertA _ _ _ r hr with h1 | h1
      · rw [h1]; exact hl p (List.mem_cons_self p t)
      · exact h r h1

theorem mem_query_uras_key (dp : DebtPool) (user : String) (p : String × Nat)
    (h : p ∈ dp.query_user_raft_amounts user) :
    p.1 ∈ dp.raft_amounts.map Prod.fst := by
  unfold DebtPool.query_user_raft_amounts at h
  obtain ⟨q, hq, he⟩ := List.mem_filterMap.mp h
  by_cases hz : dp.query_user_raft_amount user q.1 ≠ 0
  · rw [if_pos hz] at he
    cases he
    exact List.mem_map.mpr ⟨q, hq, rfl⟩
  · rw [if_neg hz] at he
    cases he

theorem calc_all_rows (dp : DebtPool) (o n : Nat) :
    (dp.calc_all_debt_ratio o n).user_raft_amounts = dp.user_raft_amounts := by
  unfold DebtPool.calc_all_debt_ratio
  split <;> rfl

theorem calc_all_lookup_none (dp : DebtPool) (o n : Nat) (u : String)
    (h : lookupA dp.debt_ratios u = none) :
    lookupA (dp.calc_all_debt_ratio o n).debt_ratios u = none := by
  unfold DebtPool.calc_all_debt_ratio
  split
  · exact h
  · show lookupA (dp.debt_ratios.map fun p => (p.1, o * p.2 / n)) u = none
    rw [lookupA_map_key_preserving, h]
    rfl

/-- C4: pooled redemption with a settlement-asset shortfall.  When the
caller's pooled rUSD holding does not cover the owed debt
(`pooled * PRICE_PRECISION < user_debt`), `redeem_in_debtpool` drains the
entire pooled holding and draws the shortfall from the caller's
AccountBook row of the same asset: it succeeds whenever
`debt_amount ≤ pooled + book`, zeroing the debt (the caller's debt-ratio
entry is removed, the pooled row reads 0) and leaving the AccountBook row
at `book - (debt_amount - pooled)`; it fails with the insufficient-balance
error otherwise.  The hypotheses ask for a running contract, a registered
rUSD asset, an empty collateral list for the caller, duplicate-free map
keys (as the NEAR collections guarantee), and oracle prices for every
tracked raft. -/
theorem C4_redemption_shortfall_fallback (sbc : Nat) (st : Contract) (sender : String) (ru : Asset) (tv : Nat)
    (h_run : st.assert_contract_running = .ok ())
    (h_rusd : st.query_rusd = some ru)
    (h_ids : lookupA st.user_collaterals sender = some [])
    (h_tv : st.debt_pool.calc_raft_total_value st.price_oracle = .ok tv)
    (h_pos : 0 < tv * st.debt_pool.query_debt_ratio sender / RATIO_DIVISOR)
    (h_short : st.debt_pool.query_user_raft_amount sender ru.address * PRICE_PRECISION
      < tv * st.debt_pool.query_debt_ratio sender / RATIO_DIVISOR)
    (h_nodup_rows : (st.debt_pool.user_raft_amounts.map Prod.fst).Nodup)
    (h_nodup_ratios : (st.debt_pool.debt_ratios.map Prod.fst).Nodup)
    (h_prices : ∀ r ∈ st.debt_pool.raft_amounts.map Prod.fst,
      ∃ p, st.price_oracle.get_price r = .ok p)
    (h_pru : ∃ p, st.price_oracle.get_price ru.address = .ok p) :
    (st.debt_pool.query_user_raft_amount sender ru.address
        + st.account_book.query_user_raft_amount sender ru.address
        < tv * st.debt_pool.query_debt_ratio sender / RATIO_DIVISOR / PRICE_PRECISION →
      Contract.redeem_in_debtpool sbc st sender = .error "insufficient balance")
  ∧ (tv * st.debt_pool.query_debt_ratio sender / RATIO_DIVISOR / PRICE_PRECISION
        ≤ st.debt_pool.query_user_raft_amount sender ru.address
          + st.account_book.query_user_raft_amount sender ru.address →
      ∃ st', Contract.redeem_in_debtpool sbc st sender = .ok st'
        ∧ lookupA st'.debt_pool.debt_ratios sender = none
        ∧ st'.debt_pool.query_debt_ratio sender = 0
        ∧ st'.debt_pool.query_user_raft_amount sender ru.address = 0
        ∧ st'.account_book.query_user_raft_amount sender ru.address
            = st.account_book.query_user_raft_amount sender ru.address
              - (tv * st.debt_pool.query_debt_ratio sender / RATIO_DIVISOR / PRICE_PRECISION
                - st.debt_pool.query_user_raft_amount sender ru.address)) := by
  set ud := tv * st.debt_pool.query_debt_ratio sender / RATIO_DIVISOR with hud
  set uda := ud / PRICE_PRECISION with huda
  set pooled := st.debt_pool.query_user_raft_amount sender ru.address with hpooled
  set book := st.account_book.query_user_raft_amount sender ru.address with hbook
  have hredeem := redeem_in_debtpool_unfold sbc st sender ru [] tv h_run h_rusd h_ids h_tv
  rw [if_pos h_pos] at hredeem
  have hsettle := settle_shortfall st sender ru.address ud (by rw [← hpooled]; omega)
  constructor
  · intro hfail
    rw [hredeem, hsettle.1 (by rw [← hbook, ← hpooled]; omega), error_bind]
  · intro hcov
    rw [hredeem, hsettle.2 (by rw [← hpooled, ← hbook]; omega), ok_bind]
    set rem := uda - pooled with hrem
    set st2 : Contract := { st with
      debt_pool :=
        ((st.debt_pool.remove_user_raft_amount sender ru.address).insert_raft_amount ru.address
          (wb_after_sub0 pooled)).remove_debt_ratio sender,
      account_book :=
        ((st.account_book.insert_user_raft_amount sender ru.address
            (book - rem)).insert_raft_amount ru.address
          ((st.account_book.insert_user_raft_amount sender ru.address
              (book - rem)).query_raft_amount ru.address - rem)) } with hst2
    -- basic facts about st2's fields
    have h2rows : st2.debt_pool.user_raft_amounts
        = removeA st.debt_pool.user_raft_amounts (sender, ru.address) := rfl
    have h2ratios : st2.debt_pool.debt_ratios = removeA st.debt_pool.debt_ratios sender := rfl
    have h2raft : st2.debt_pool.raft_amounts
        = insertA st.debt_pool.raft_amounts ru.address (wb_after_sub0 pooled) := rfl
    have h2book : st2.account_book.user_raft_amounts
        = insertA st.account_book.user_raft_amounts (sender, ru.address) (book - rem) := rfl
    have h2po : st2.price_oracle = st.price_oracle := rfl
    have hnorow : lookupA st2.debt_pool.user_raft_amounts (sender, ru.address) = none := by
      rw [h2rows]
      exact lookupA_removeA_self_of_nodup _ _ h_nodup_rows
    have hsnap_ne : ∀ p ∈ st2.debt_pool.query_user_raft_amounts sender, p.1 ≠ ru.address := by
      intro p hp he
      have hq := mem_query_user_raft_amounts _ _ _ hp
      rw [he] at hq
      unfold DebtPool.query_user_raft_amount at hq
      rw [hnorow] at hq
      exact hq.2 hq.1.symm
    have hsnap_keys : ∀ p ∈ st2.debt_pool.query_user_raft_amounts sender,
        ∃ pr, st.price_oracle.get_price p.1 = .ok pr := by
      intro p hp
      have hk := mem_query_uras_key _ _ _ hp
      rw [h2raft] at hk
      rcases keys_insertA _ _ _ _ hk with h1 | h1
      · rw [h1]; exact h_pru
      · exact h_prices _ h1
    have h2priced : pricedKeys st.price_oracle (st2.debt_pool.raft_amounts.map Prod.fst) := by
      intro r hr
      rw [h2raft] at hr
      rcases keys_insertA _ _ _ _ hr with h1 | h1
      · rw [h1]; exact h_pru
      · exact h_prices _ h1
    set stM := st2.redeem_migrate sender with hstM
    have hMpo : stM.price_oracle = st.price_oracle := by
      rw [hstM, migrate_price_oracle]
    have hMpriced : pricedKeys st.price_oracle (stM.debt_pool.raft_amounts.map Prod.fst) := by
      rw [hstM]
      unfold Contract.redeem_migrate
      exact migrate_fold_priced sender st.price_oracle _ _ h2priced hsnap_keys
    obtain ⟨ntv, hntv⟩ := calc_total_ok st.price_oracle stM.debt_pool hMpriced
    have hMratios : lookupA stM.debt_pool.debt_ratios sender = none := by
      rw [hstM, migrate_debt_ratios, h2ratios]
      exact lookupA_removeA_self_of_nodup _ _ h_nodup_ratios
    have hMrow : lookupA stM.debt_pool.user_raft_amounts (sender, ru.address) = none := by
      rw [hstM]
      unfold Contract.redeem_migrate
      rw [migrate_fold_pool_row sender ru.address _ _ hsnap_ne]
      exact hnorow
    have hMbook : lookupA stM.account_book.user_raft_amounts (sender, ru.address)
        = some (book - rem) := by
      rw [hstM]
      unfold Contract.redeem_migrate
      rw [migrate_fold_book_row sender ru.address _ _ hsnap_ne, h2book]
      exact lookupA_insertA_self _ _ _
    unfold redeem_finish
    rw [← hstM, hMpo, hntv, ok_bind, return_collateral_nil]
    refine ⟨_, rfl, ?_, ?_, ?_, ?_⟩
    · exact calc_all_lookup_none _ _ _ _ hMratios
    · unfold DebtPool.query_debt_ratio
      rw [calc_all_lookup_none _ _ _ _ hMratios]
      rfl
    · unfold DebtPool.query_user_raft_amount
      rw [calc_all_rows, hMrow]
      rfl
    · unfold AccountBook.query_user_raft_amount
      rw [hMbook]
      rfl

/-- C4 witness: with pooled 10, debt amount 15 and AccountBook 5 the
redemption succeeds and zeroes the debt; with AccountBook 4 it fails with
the insufficient-balance error. -/
theorem C4_redemption_shortfall_fallback_witness :
    (∃ st', Contract.redeem_in_debtpool 1 (c4w_state 5) "a" = .ok st'
      ∧ lookupA st'.debt_pool.debt_ratios "a" = none
      ∧ st'.debt_pool.query_debt_ratio "a" = 0
      ∧ st'.debt_pool.query_user_raft_amount "a" rusdAsset.address = 0
      ∧ st'.account_book.query_user_raft_amount "a" rusdAsset.address
          = (c4w_state 5).account_book.query_user_raft_amount "a" rusdAsset.address
            - (3000000 * (c4w_state 5).debt_pool.query_debt_ratio "a" / RATIO_DIVISOR
                / PRICE_PRECISION
              - (c4w_state 5).debt_pool.query_user_raft_amount "a" rusdAsset.address))
  ∧ Contract.redeem_in_debtpool 1 (c4w_state 4) "a" = .error "insufficient balance" :=
  ⟨(C4_redemption_shortfall_fallback 1 (c4w_state 5) "a" rusdAsset 3000000
      rfl rfl (by decide) (by decide) (by decide) (by decide) (by decide) (by decide)
      (by intro r hr; simp [c4w_state] at hr; subst hr; exact ⟨100000, rfl⟩)
      ⟨100000, rfl⟩).2 (by decide),
   (C4_redemption_shortfall_fallback 1 (c4w_state 4) "a" rusdAsset 3000000
      rfl rfl (by decide) (by decide) (by decide) (by decide) (by decide) (by decide)
      (by intro r hr; simp [c4w_state] at hr; subst hr; exact ⟨100000, rfl⟩)
      ⟨100000, rfl⟩).1 (by decide)⟩

end Crafting

theorem rowSum_insertA (rows : List ((String × String) × Nat)) (k : String × String)
    (v : Nat) (r : String) :
    rowSum (insertA rows k v) r + (if k.2 = r then (lookupA rows k).getD 0 else 0)
      = rowSum rows r + (if k.2 = r then v else 0) := by
  induction rows with
  | nil =>
      by_cases h : k.2 = r <;> simp [insertA, rowSum, lookupA, h]
  | cons p t ih =>
      by_cases hp : p.1 = k
      · rw [show insertA (p :: t) k v = (k, v) :: t by simp [insertA, hp]]
        simp only [rowSum, lookupA, if_pos hp, hp]
        by_cases h : k.2 = r <;> simp [h] <;> omega
      · rw [show insertA (p :: t) k v = p :: insertA t k v by simp [insertA, hp]]
        simp only [rowSum, lookupA, if_neg hp]
        by_cases h : k.2 = r
        · simp only [if_pos h] at ih ⊢
          omega
        · simp only [if_neg h] at ih ⊢
          omega

theorem rowSum_removeA (rows : List ((String × String) × Nat)) (k : String × String)
    (r : String) :
    rowSum (removeA rows k) r + (if k.2 = r then (lookupA rows k).getD 0 else 0)
      = rowSum rows r := by
  induction rows with
  | nil =>
      by_cases h : k.2 = r <;> simp [removeA, rowSum, lookupA, h]
  | cons p t ih =>
      by_cases hp : p.1 = k
      · rw [show removeA (p :: t) k = t by simp [removeA, hp]]
        simp only [rowSum, lookupA, if_pos hp, hp]
        by_cases h : k.2 = r <;> simp [h] <;> omega
      · rw [show removeA (p :: t) k = p :: removeA t k by simp [removeA, hp]]
        simp only [rowSum, lookupA, if_neg hp]
        by_cases h : k.2 = r
        · simp only [if_pos h] at ih ⊢
          omega
        · simp only [if_neg h] at ih ⊢
          omega

theorem getD_le_rowSum (rows : List ((String × String) × Nat)) (k : String × String) :
    (lookupA rows k).getD 0 ≤ rowSum rows k.2 := by
  induction rows with
  | nil => simp [lookupA, rowSum]
  | cons p t ih =>
      by_cases hp : p.1 = k
      · simp only [lookupA, if_pos hp, rowSum, Option.getD_some, hp]
        simp
      · simp only [lookupA, if_neg hp, rowSum]
        omega

theorem query_insert_total (ab : AccountBook) (r : String) (v : Nat) (r2 : String) :
    (ab.insert_raft_amount r v).query_raft_amount r2
      = if r = r2 then v else ab.query_raft_amount r2 := by
  unfold AccountBook.insert_raft_amount AccountBook.query_raft_amount
  by_cases h : r = r2
  · subst h
    simp [lookupA_insertA_self]
  · simp [lookupA_insertA_ne _ _ _ _ h, h]

theorem consistent_add_both (ab : AccountBook) (u r : String) (a : Nat)
    (h : consistent ab) :
    consistent ((ab.insert_raft_amount r (ab.query_raft_amount r + a)).insert_user_raft_amount
      u r ((ab.insert_raft_amount r (ab.query_raft_amount r + a)).query_user_raft_amount u r + a)) := by
  intro r2
  show (ab.insert_raft_amount r (ab.query_raft_amount r + a)).query_raft_amount r2
      = rowSum (insertA ab.user_raft_amounts (u, r)
          ((lookupA ab.user_raft_amounts (u, r)).getD 0 + a)) r2
  rw [query_insert_total]
  have hrow := rowSum_insertA ab.user_raft_amounts (u, r)
      ((lookupA ab.user_raft_amounts (u, r)).getD 0 + a) r2
  simp only [show ((u, r).2 : String) = r from rfl] at hrow
  have hq := h r2
  have hqr := h r
  by_cases h2 : r = r2
  · subst h2
    rw [if_pos rfl, if_pos rfl] at hrow
    rw [if_pos rfl]
    omega
  · rw [if_neg h2]
    rw [if_neg h2, if_neg h2] at hrow
    omega

theorem getD_lookupA_insertA {α : Type} [DecidableEq α] (l : List (α × Nat)) (k : α)
    (v : Nat) (k2 : α) :
    (lookupA (insertA l k v) k2).getD 0 = if k = k2 then v else (lookupA l k2).getD 0 := by
  by_cases h : k = k2
  · subst h
    rw [lookupA_insertA_self, if_pos rfl]
    rfl
  · rw [lookupA_insertA_ne _ _ _ _ h, if_neg h]

theorem consistent_swap_book (ab : AccountBook) (owner sender old_r new_r : String)
    (s fee nsa : Nat)
    (hso : sender ≠ owner)
    (hTs : s ≤ ab.query_raft_amount old_r)
    (hqs : s ≤ ab.query_user_raft_amount sender old_r)
    (h : consistent ab) :
    consistent
      { raft_amounts :=
          insertA (insertA ab.raft_amounts old_r (ab.query_raft_amount old_r - s + fee)) new_r
            ((lookupA (insertA ab.raft_amounts old_r (ab.query_raft_amount old_r - s + fee))
                new_r).getD 0 + nsa),
        user_raft_amounts :=
          insertA
            (insertA
              (insertA ab.user_raft_amounts (owner, old_r)
                (ab.query_user_raft_amount owner old_r + fee))
              (sender, old_r) (ab.query_user_raft_amount sender old_r - s))
            (sender, new_r)
            ((lookupA
                (insertA
                  (insertA ab.user_raft_amounts (owner, old_r)
                    (ab.query_user_raft_amount owner old_r + fee))
                  (sender, old_r) (ab.query_user_raft_amount sender old_r - s))
                (sender, new_r)).getD 0 + nsa) } := by
  intro r2
  set qow := ab.query_user_raft_amount owner old_r with hqow
  set qse := ab.query_user_raft_amount sender old_r with hqse
  set T := ab.query_raft_amount old_r with hT
  set rows0 := ab.user_raft_amounts with hrows0
  set rows1 := insertA rows0 (owner, old_r) (qow + fee) with hrows1
  set rows3 := insertA rows1 (sender, old_r) (qse - s) with hrows3
  set q4row := (lookupA rows3 (sender, new_r)).getD 0 with hq4row
  have hlk1 : lookupA rows1 (sender, old_r) = lookupA rows0 (sender, old_r) :=
    lookupA_insertA_ne _ _ _ _ (by intro he; exact hso (congrArg Prod.fst he).symm)
  have hqse' : (lookupA rows0 (sender, old_r)).getD 0 = qse := rfl
  have hqow' : (lookupA rows0 (owner, old_r)).getD 0 = qow := rfl
  have E1 : rowSum rows1 r2 + (if old_r = r2 then qow else 0)
      = rowSum rows0 r2 + (if old_r = r2 then qow + fee else 0) := by
    have e := rowSum_insertA rows0 (owner, old_r) (qow + fee) r2
    rw [show ((owner, old_r).2 : String) = old_r from rfl] at e
    rw [hqow'] at e
    exact e
  have E3 : rowSum rows3 r2 + (if old_r = r2 then qse else 0)
      = rowSum rows1 r2 + (if old_r = r2 then qse - s else 0) := by
    have e := rowSum_insertA rows1 (sender, old_r) (qse - s) r2
    rw [show ((sender, old_r).2 : String) = old_r from rfl, hlk1, hqse'] at e
    exact e
  have E5 : rowSum (insertA rows3 (sender, new_r) (q4row + nsa)) r2
        + (if new_r = r2 then q4row else 0)
      = rowSum rows3 r2 + (if new_r = r2 then q4row + nsa else 0) := by
    have e := rowSum_insertA rows3 (sender, new_r) (q4row + nsa) r2
    rw [show ((sender, new_r).2 : String) = new_r from rfl] at e
    exact e
  have hq := h r2
  show (lookupA (insertA (insertA ab.raft_amounts old_r (T - s + fee)) new_r
      ((lookupA (insertA ab.raft_amounts old_r (T - s + fee)) new_r).getD 0 + nsa)) r2).getD 0
      = rowSum (insertA rows3 (sender, new_r) (q4row + nsa)) r2
  rw [getD_lookupA_insertA, getD_lookupA_insertA, getD_lookupA_insertA]
  by_cases hnr : new_r = r2
  · simp only [if_pos hnr] at E5 ⊢
    by_cases hon : old_r = new_r
    · rw [if_pos hon]
      have hor : old_r = r2 := hon.trans hnr
      simp only [if_pos hor] at E1 E3
      have hTr : T = rowSum rows0 r2 := by
        rw [hT, hor]
        exact h r2
      omega
    · rw [if_neg hon]
      have hqn : ab.query_raft_amount new_r = rowSum rows0 r2 := by
        rw [hnr]
        exact h r2
      have hqn' : (lookupA ab.raft_amounts new_r).getD 0 = rowSum rows0 r2 := hqn
      by_cases hor : old_r = r2
      · exact absurd (hor.trans hnr.symm) hon
      · simp only [if_neg hor] at E1 E3
        omega
  · simp only [if_neg hnr] at E5 ⊢
    by_cases hor : old_r = r2
    · rw [if_pos hor]
      simp only [if_pos hor] at E1 E3
      have hTr : T = rowSum rows0 r2 := by
        rw [hT, hor]
        exact h r2
      omega
    · rw [if_neg hor]
      simp only [if_neg hor] at E1 E3
      have hq' : (lookupA ab.raft_amounts r2).getD 0 = rowSum rows0 r2 := hq
      omega

theorem throw_bind_ne_ok {α β : Type} (e : String) (k : α → Except String β) (b : β) :
    ¬ (((throw e : Except String α) >>= k) = .ok b) :=
  fun h => Except.noConfusion h

theorem throw_bind {α β : Type} (e : String) (f : α → Except String β) :
    ((throw e : Except String α) >>= f) = Except.error e := rfl

theorem pure_bind_ex {α β : Type} (a : α) (f : α → Except String β) :
    ((pure a : Except String α) >>= f) = f a := rfl

theorem consistent_swap_in_accountbook (st : Contract) (sender old_r new_r : String)
    (amt : Nat) (st' : Contract)
    (hso : sender ≠ st.owner_id)
    (hok : Contract.swap_in_accountbook st sender old_r new_r amt = .ok st')
    (h : consistent st.account_book) :
    consistent st'.account_book := by
  unfold Contract.swap_in_accountbook at hok
  cases hrun : st.assert_contract_running with
  | error e =>
      rw [hrun, error_bind] at hok
      exact Except.noConfusion hok
  | ok u =>
      rw [hrun, ok_bind] at hok
      by_cases g1 : ¬ st.is_in_whitelisted_rafts old_r = true
      · rw [if_pos g1, throw_bind] at hok
        exact Except.noConfusion hok
      rw [if_neg g1, pure_bind_ex] at hok
      try dsimp only at hok
      by_cases g2 : ¬ st.is_in_whitelisted_rafts new_r = true
      · rw [if_pos g2, throw_bind] at hok
        exact Except.noConfusion hok
      rw [if_neg g2, pure_bind_ex] at hok
      try dsimp only at hok
      by_cases g3 : amt = 0
      · rw [if_pos g3, throw_bind] at hok
        exact Except.noConfusion hok
      rw [if_neg g3, pure_bind_ex] at hok
      try dsimp only at hok
      by_cases g4 : st.account_book.query_raft_amount old_r < amt
      · rw [if_pos g4, throw_bind] at hok
        exact Except.noConfusion hok
      rw [if_neg g4, pure_bind_ex] at hok
      try dsimp only at hok
      by_cases g5 : st.account_book.query_user_raft_amount sender old_r < amt
      · rw [if_pos g5, throw_bind] at hok
        exact Except.noConfusion hok
      rw [if_neg g5, pure_bind_ex] at hok
      try dsimp only at hok
      cases hp1 : st.price_oracle.get_price old_r with
      | error e =>
          rw [hp1, error_bind] at hok
          exact Except.noConfusion hok
      | ok pold =>
          rw [hp1, ok_bind] at hok
          cases hp2 : st.price_oracle.get_price new_r with
          | error e =>
              rw [hp2, error_bind] at hok
              exact Except.noConfusion hok
          | ok pnew =>
              rw [hp2, ok_bind] at hok
              by_cases g6 : pnew = 0
              · rw [if_pos g6, throw_bind] at hok
                exact Except.noConfusion hok
              rw [if_neg g6, pure_bind_ex] at hok
              try dsimp only at hok
              cases hok
              exact consistent_swap_book st.account_book st.owner_id sender old_r new_r
                amt (amt * st.exchange_fee / FEE_DIVISOR)
                (pold * (amt - amt * st.exchange_fee / FEE_DIVISOR) / pnew)
                hso (by omega) (by omega) h

theorem consistent_mint (ab : AccountBook) (u r : String) (a : Nat)
    (h : consistent ab) :
    consistent (AccountBook.mint ab u r a) :=
  consistent_add_both ab u r a h

theorem consistent_sub_both (ab : AccountBook) (u r : String) (a : Nat)
    (ha : a ≤ ab.query_user_raft_amount u r)
    (h : consistent ab) :
    consistent ((ab.insert_raft_amount r (ab.query_raft_amount r - a)).insert_user_raft_amount
      u r (ab.query_user_raft_amount u r - a)) := by
  intro r2
  show (ab.insert_raft_amount r (ab.query_raft_amount r - a)).query_raft_amount r2
      = rowSum (insertA ab.user_raft_amounts (u, r)
          ((lookupA ab.user_raft_amounts (u, r)).getD 0 - a)) r2
  rw [query_insert_total]
  have hrow := rowSum_insertA ab.user_raft_amounts (u, r)
      ((lookupA ab.user_raft_amounts (u, r)).getD 0 - a) r2
  simp only [show ((u, r).2 : String) = r from rfl] at hrow
  have hq := h r2
  have hqr := h r
  have hle := getD_le_rowSum ab.user_raft_amounts (u, r)
  simp only [show ((u, r).2 : String) = r from rfl] at hle
  have ha' : a ≤ (lookupA ab.user_raft_amounts (u, r)).getD 0 := ha
  by_cases h2 : r = r2
  · subst h2
    rw [if_pos rfl, if_pos rfl] at hrow
    rw [if_pos rfl]
    omega
  · rw [if_neg h2]
    rw [if_neg h2, if_neg h2] at hrow
    omega

theorem consistent_deposit_flow (st : Contract) (sender raft_id : String)
    (amt ra ua : Nat)
    (hok : Contract.deposit_in_accountbook st sender raft_id = .ok (ra, ua))
    (h : consistent st.account_book) :
    consistent (Contract.account_book_callback_deposit st sender raft_id
      amt ra ua).account_book := by
  unfold Contract.deposit_in_accountbook at hok
  cases hrun : st.assert_contract_running with
  | error e =>
      rw [hrun, error_bind] at hok
      exact Except.noConfusion hok
  | ok u =>
      rw [hrun, ok_bind] at hok
      cases hok
      exact consistent_add_both st.account_book sender raft_id amt h

theorem withdraw_snapshot_inv (st : Contract) (sender raft_id : String)
    (amt ra ua : Nat)
    (hok : Contract.withdraw_in_accountbook st sender raft_id amt = .ok (ra, ua)) :
    ra = st.account_book.query_raft_amount raft_id
    ∧ ua = st.account_book.query_user_raft_amount sender raft_id
    ∧ amt ≤ ua := by
  unfold Contract.withdraw_in_accountbook at hok
  cases hrun : st.assert_contract_running with
  | error e =>
      rw [hrun, error_bind] at hok
      exact Except.noConfusion hok
  | ok u =>
      rw [hrun, ok_bind] at hok
      by_cases g1 : amt = 0
      · rw [if_pos g1, throw_bind] at hok
        exact Except.noConfusion hok
      rw [if_neg g1, pure_bind_ex] at hok
      try dsimp only at hok
      by_cases g2 : st.account_book.query_raft_amount raft_id < amt
      · rw [if_pos g2, throw_bind] at hok
        exact Except.noConfusion hok
      rw [if_neg g2, pure_bind_ex] at hok
      try dsimp only at hok
      by_cases g3 : st.account_book.query_user_raft_amount sender raft_id < amt
      · rw [if_pos g3, throw_bind] at hok
        exact Except.noConfusion hok
      rw [if_neg g3, pure_bind_ex] at hok
      cases hok
      exact ⟨rfl, rfl, by omega⟩

theorem consistent_withdraw_flow (st : Contract) (sender raft_id : String)
    (amt ra ua : Nat)
    (hok : Contract.withdraw_in_accountbook st sender raft_id amt = .ok (ra, ua))
    (h : consistent st.account_book) :
    consistent (Contract.account_book_callback_withdraw st sender raft_id
      amt ra ua).account_book := by
  obtain ⟨hra, hua, hle⟩ := withdraw_snapshot_inv st sender raft_id amt ra ua hok
  subst hra
  subst hua
  exact consistent_sub_both st.account_book sender raft_id amt hle h

theorem consistent_migrate_step (sender : String) (st : Contract) (p : String × Nat)
    (h : consistent st.account_book) :
    consistent (Contract.redeem_migrate_step sender st p).account_book :=
  consistent_add_both st.account_book sender p.1 p.2 h

theorem consistent_migrate_fold (sender : String) (l : List (String × Nat)) :
    ∀ st : Contract, consistent st.account_book →
      consistent (l.foldl (Contract.redeem_migrate_step sender) st).account_book := by
  induction l with
  | nil => exact fun st h => h
  | cons p t ih => exact fun st h => ih _ (consistent_migrate_step sender st p h)

theorem consistent_migrate (st : Contract) (sender : String)
    (h : consistent st.account_book) :
    consistent (Contract.redeem_migrate st sender).account_book :=
  consistent_migrate_fold sender (st.debt_pool.query_user_raft_amounts sender) st h

theorem consistent_redeem_book (ab : AccountBook) (owner sender raft : String)
    (cra fee : Nat)
    (hso : sender ≠ owner)
    (hU : cra + fee < ab.query_user_raft_amount sender raft)
    (h : consistent ab) :
    consistent
      { raft_amounts := insertA ab.raft_amounts raft (ab.query_raft_amount raft - cra),
        user_raft_amounts :=
          insertA
            (insertA ab.user_raft_amounts (owner, raft)
              (ab.query_user_raft_amount owner raft + fee))
            (sender, raft)
            (ab.query_user_raft_amount sender raft - cra - fee) } := by
  intro r2
  set qow := ab.query_user_raft_amount owner raft with hqow
  set qse := ab.query_user_raft_amount sender raft with hqse
  set rows0 := ab.user_raft_amounts with hrows0
  set rows1 := insertA rows0 (owner, raft) (qow + fee) with hrows1
  have hlk1 : lookupA rows1 (sender, raft) = lookupA rows0 (sender, raft) :=
    lookupA_insertA_ne _ _ _ _ (by intro he; exact hso (congrArg Prod.fst he).symm)
  have hqse' : (lookupA rows0 (sender, raft)).getD 0 = qse := rfl
  have hqow' : (lookupA rows0 (owner, raft)).getD 0 = qow := rfl
  have E1 : rowSum rows1 r2 + (if raft = r2 then qow else 0)
      = rowSum rows0 r2 + (if raft = r2 then qow + fee else 0) := by
    have e := rowSum_insertA rows0 (owner, raft) (qow + fee) r2
    rw [show ((owner, raft).2 : String) = raft from rfl] at e
    rw [hqow'] at e
    exact e
  have E2 : rowSum (insertA rows1 (sender, raft) (qse - cra - fee)) r2
        + (if raft = r2 then qse else 0)
      = rowSum rows1 r2 + (if raft = r2 then qse - cra - fee else 0) := by
    have e := rowSum_insertA rows1 (sender, raft) (qse - cra - fee) r2
    rw [show ((sender, raft).2 : String) = raft from rfl, hlk1, hqse'] at e
    exact e
  have hq := h r2
  have hle : qse ≤ rowSum rows0 raft := by
    have e := getD_le_rowSum rows0 (sender, raft)
    rw [show ((sender, raft).2 : String) = raft from rfl, hqse'] at e
    exact e
  show (lookupA (insertA ab.raft_amounts raft (ab.query_raft_amount raft - cra)) r2).getD 0
      = rowSum (insertA rows1 (sender, raft) (qse - cra - fee)) r2
  rw [getD_lookupA_insertA]
  by_cases hr : raft = r2
  · rw [if_pos hr]
    simp only [if_pos hr] at E1 E2
    have hqr : ab.query_raft_amount raft = rowSum rows0 r2 := by
      rw [hr]
      exact h r2
    omega
  · rw [if_neg hr]
    simp only [if_neg hr] at E1 E2
    have hq' : (lookupA ab.raft_amounts r2).getD 0 = rowSum rows0 r2 := hq
    omega

theorem consistent_redeem_in_accountbook (sbc : Nat) (st : Contract) (sender : String)
    (collateral_id : Nat) (st' : Contract)
    (hso : sender ≠ st.owner_id)
    (hok : Contract.redeem_in_accountbook sbc st sender collateral_id = .ok st')
    (h : consistent st.account_book) :
    consistent st'.account_book := by
  unfold Contract.redeem_in_accountbook at hok
  cases hrun : st.assert_contract_running with
  | error e =>
      rw [hrun, error_bind] at hok
      exact Except.noConfusion hok
  | ok u =>
      rw [hrun, ok_bind] at hok
      cases hc : st.query_collateral collateral_id with
      | none =>
          rw [hc] at hok
          exact Except.noConfusion hok
      | some collateral =>
          rw [hc] at hok
          try dsimp only at hok
          by_cases g1 : collateral.issuer ≠ sender
          · rw [if_pos g1, throw_bind] at hok
            exact Except.noConfusion hok
          rw [if_neg g1, pure_bind_ex] at hok
          try dsimp only at hok
          by_cases g2 : collateral.join_debtpool ≠ false
          · rw [if_pos g2, throw_bind] at hok
            exact Except.noConfusion hok
          rw [if_neg g2, pure_bind_ex] at hok
          try dsimp only at hok
          by_cases g3 : collateral.state ≠ 0
          · rw [if_pos g3, throw_bind] at hok
            exact Except.noConfusion hok
          rw [if_neg g3, pure_bind_ex] at hok
          try dsimp only at hok
          by_cases g4 : st.account_book.query_raft_amount collateral.raft
              ≤ collateral.raft_amount + collateral.raft_amount * st.interest_fee / FEE_DIVISOR
          · rw [if_pos g4, throw_bind] at hok
            exact Except.noConfusion hok
          rw [if_neg g4, pure_bind_ex] at hok
          try dsimp only at hok
          by_cases g5 : st.account_book.query_user_raft_amount sender collateral.raft
              ≤ collateral.raft_amount + collateral.raft_amount * st.interest_fee / FEE_DIVISOR
          · rw [if_pos g5, throw_bind] at hok
            exact Except.noConfusion hok
          rw [if_neg g5, pure_bind_ex] at hok
          try dsimp only at hok
          split at hok
          · next account ha =>
              try dsimp only at hok
              cases hw : account.withdraw collateral.token collateral.token_amount with
              | error e =>
                  rw [hw, error_bind] at hok
                  exact Except.noConfusion hok
              | ok account2 =>
                  rw [hw, ok_bind] at hok
                  unfold Contract.internal_save_account at hok
                  by_cases g6 : account2.storage_usage sbc ≤ account2.near_amount
                  · rw [if_pos g6] at hok
                    cases hok
                    exact consistent_redeem_book st.account_book st.owner_id sender
                      collateral.raft collateral.raft_amount
                      (collateral.raft_amount * st.interest_fee / FEE_DIVISOR)
                      hso (by omega) h
                  · rw [if_neg g6] at hok
                    exact Except.noConfusion hok
          · exact Except.noConfusion hok

theorem consistent_single (r0 u0 : String) (v : Nat) :
    consistent { raft_amounts := [(r0, v)], user_raft_amounts := [((u0, r0), v)] } := by
  intro r2
  show (lookupA [(r0, v)] r2).getD 0 = rowSum [((u0, r0), v)] r2
  by_cases hr : r0 = r2
  · simp [lookupA, rowSum, hr]
  · simp [lookupA, rowSum, hr]

/-- C10 counterexample: when the **owner** swaps in the AccountBook, the
fee credited to the owner's user row is overwritten by the subsequent
sender-row update (both rows alias), while the book total still receives
the fee: starting from a consistent book, `swap_in_accountbook` returns
a state whose total for `x` is `3` but whose user rows sum to `0` for
`x`, so the per-raft totals no longer equal the row sums. -/
theorem C10_counterexample_owner_self_swap :
    consistent c10_state.account_book
    ∧ Contract.swap_in_accountbook c10_state "own" "x" "y" 1000 = .ok c10_after
    ∧ c10_after.account_book.query_raft_amount "x" = 3
    ∧ rowSum c10_after.account_book.user_raft_amounts "x" = 0
    ∧ ¬ consistent c10_after.account_book :=
  ⟨consistent_single "x" "own" 1000, by decide, by decide, by decide,
   fun hc => absurd (hc "x") (by decide)⟩

/-- C10 (amended): the AccountBook consistency invariant — every per-raft
total equals the sum of the per-(user, raft) rows — is preserved by
`AccountBook.mint`, by `swap_in_accountbook` and `redeem_in_accountbook`
**provided the caller is not the owner** (the unrestricted statement is
refuted by `C10_counterexample_owner_self_swap`), by the deposit and
withdraw callbacks when fed the snapshots returned by their initiating
calls, and by the pooled redemption's migration loop. -/
theorem C10_amended_account_book_consistency
    (sbc : Nat) (st : Contract) (sender old_r new_r raft_id : String)
    (amt cid ra ua : Nat) (st1 st2 : Contract)
    (h : consistent st.account_book)
    (hso : sender ≠ st.owner_id) :
    consistent (AccountBook.mint st.account_book sender raft_id amt)
    ∧ (Contract.swap_in_accountbook st sender old_r new_r amt = .ok st1 →
        consistent st1.account_book)
    ∧ (Contract.redeem_in_accountbook sbc st sender cid = .ok st2 →
        consistent st2.account_book)
    ∧ (Contract.deposit_in_accountbook st sender raft_id = .ok (ra, ua) →
        consistent (Contract.account_book_callback_deposit st sender raft_id
          amt ra ua).account_book)
    ∧ (Contract.withdraw_in_accountbook st sender raft_id amt = .ok (ra, ua) →
        consistent (Contract.account_book_callback_withdraw st sender raft_id
          amt ra ua).account_book)
    ∧ consistent (Contract.redeem_migrate st sender).account_book :=
  ⟨consistent_mint _ _ _ _ h,
   fun hok => consistent_swap_in_accountbook st sender old_r new_r amt st1 hso hok h,
   fun hok => consistent_redeem_in_accountbook sbc st sender cid st2 hso hok h,
   fun hok => consistent_deposit_flow st sender raft_id amt ra ua hok h,
   fun hok => consistent_withdraw_flow st sender raft_id amt ra ua hok h,
   consistent_migrate st sender h⟩

/-- Witness for `C10_amended_account_book_consistency` at a concrete
consistent book and non-owner sender. -/
theorem C10_amended_account_book_consistency_witness :
    consistent c10w_state.account_book
    ∧ ("alice" : String) ≠ c10w_state.owner_id
    ∧ (consistent (AccountBook.mint c10w_state.account_book "alice" "x" 10)
       ∧ (Contract.swap_in_accountbook c10w_state "alice" "x" "y" 10 = .ok baseContract →
           consistent baseContract.account_book)
       ∧ (Contract.redeem_in_accountbook 1 c10w_state "alice" 0 = .ok baseContract →
           consistent baseContract.account_book)
       ∧ (Contract.deposit_in_accountbook c10w_state "alice" "x" = .ok (100, 100) →
           consistent (Contract.account_book_callback_deposit c10w_state "alice" "x"
             10 100 100).account_book)
       ∧ (Contract.withdraw_in_accountbook c10w_state "alice" "x" 10 = .ok (100, 100) →
           consistent (Contract.account_book_callback_withdraw c10w_state "alice" "x"
             10 100 100).account_book)
       ∧ consistent (Contract.redeem_migrate c10w_state "alice").account_book) :=
  ⟨consistent_single "x" "alice" 100, by decide,
   C10_amended_account_book_consistency 1 c10w_state "alice" "x" "y" "x" 10 0 100 100
     baseContract baseContract (consistent_single "x" "alice" 100) (by decide)⟩
